import Mathlib

/-!
# Shallow embedding of the uf-crsf CRSF telemetry library

This file embeds the core of the `uf-crsf` Rust crate in Lean 4 and proves
properties of the embedded code:

* the CRC-8/DVB-S2 checksum (`crc` crate, `CRC_8_DVB_S2` parameters),
* the byte-synchronizing frame state machine `CrsfParser` (`src/parser.rs`),
* the packet codecs (`src/packets/*.rs`) and the dispatch `Packet::parse`
  (`src/packets/mod.rs`),
* the frame encoder `write_packet_to_buffer` (`src/packets/mod.rs`).

Machine integers are modelled as `Nat` (unsigned) and `Int` (signed), with
explicit truncation (`&&& 255`, `% 2 ^ w`) exactly where the Rust code casts
or where fixed-width overflow can occur.  Byte buffers are `List Nat`;
`List.set` models in-place indexed stores (stores at proven-in-bounds
indices, see the buffer-safety theorems).
-/

set_option maxRecDepth 100000

namespace UfCrsf

/-! ## Two's complement helpers

`toSigned w u` reinterprets a `w`-bit unsigned value as signed
(`iN::from_be_bytes`), `toUnsigned w v` is the `as uN` cast of a signed
value. -/

def toSigned (w : Nat) (u : Nat) : Int :=
  if u < 2 ^ (w - 1) then (u : Int) else (u : Int) - 2 ^ w

def toUnsigned (w : Nat) (v : Int) : Nat :=
  (v % 2 ^ w).toNat

/-- Big-endian byte decoding: `u16::from_be_bytes`/`u32::from_be_bytes`. -/
def bytesToNatBE (bytes : List Nat) : Nat :=
  bytes.foldl (fun acc b => acc * 256 + b) 0

/-- `u16::to_be_bytes`. -/
def beBytes2 (u : Nat) : List Nat :=
  [u / 256 % 256, u % 256]

/-- `u32::to_be_bytes`. -/
def beBytes4 (u : Nat) : List Nat :=
  [u / 2 ^ 24 % 256, u / 2 ^ 16 % 256, u / 256 % 256, u % 256]

/-- `u16::from_be_bytes` over `data[i .. i + 2]`. -/
def beU16 (d : List Nat) (i : Nat) : Nat :=
  d.getD i 0 * 256 + d.getD (i + 1) 0

/-- `u32::from_be_bytes` over `data[i .. i + 4]`. -/
def beU32 (d : List Nat) (i : Nat) : Nat :=
  ((d.getD i 0 * 256 + d.getD (i + 1) 0) * 256 + d.getD (i + 2) 0) * 256 + d.getD (i + 3) 0

/-- `i16::from_be_bytes` over `data[i .. i + 2]`. -/
def beI16 (d : List Nat) (i : Nat) : Int := toSigned 16 (beU16 d i)

/-! ## CRC-8/DVB-S2 (`crc::CRC_8_DVB_S2`)

Polynomial `0xD5`, init `0x00`, not reflected, xorout `0x00`. -/

/-- One bit step of the MSB-first CRC-8 with polynomial `0xD5`. -/
def crc8Bit (c : Nat) : Nat :=
  if c &&& 0x80 ≠ 0 then ((c <<< 1) ^^^ 0xD5) &&& 0xFF else (c <<< 1) &&& 0xFF

/-- `Digest::update` for one byte. -/
def crc8Update (c b : Nat) : Nat :=
  crc8Bit (crc8Bit (crc8Bit (crc8Bit (crc8Bit (crc8Bit (crc8Bit (crc8Bit ((c ^^^ b) &&& 0xFF))))))))

/-- The digest of a byte sequence: `Crc::<u8>::new(&CRC_8_DVB_S2)` update + finalize. -/
def crc8 (bytes : List Nat) : Nat :=
  bytes.foldl crc8Update 0

-- CRC-8/DVB-S2 check value over the ASCII bytes of "123456789" is 0xBC.
example : crc8 [0x31, 0x32, 0x33, 0x34, 0x35, 0x36, 0x37, 0x38, 0x39] = 0xBC := by decide

/-! ## Addresses (`PacketAddress`, `src/packets/mod.rs`) -/

inductive PacketAddress where
  | Broadcast
  | Cloud
  | Usb
  | Bluetooth
  | WifiReceiver
  | VideoReceiver
  | TbsCorePnpPro
  | Esc1
  | Esc2
  | Esc3
  | Esc4
  | Esc5
  | Esc6
  | Esc7
  | Esc8
  | CurrentSensor
  | Gps
  | TbsBlackbox
  | FlightController
  | RaceTag
  | VTX
  | Handset
  | Receiver
  | Transmitter
deriving DecidableEq

/-- The `repr(u8)` discriminant of each `PacketAddress`. -/
def PacketAddress.toU8 : PacketAddress → Nat
  | .Broadcast => 0x00
  | .Cloud => 0x0E
  | .Usb => 0x10
  | .Bluetooth => 0x12
  | .WifiReceiver => 0x13
  | .VideoReceiver => 0x14
  | .TbsCorePnpPro => 0x80
  | .Esc1 => 0x90
  | .Esc2 => 0x91
  | .Esc3 => 0x92
  | .Esc4 => 0x93
  | .Esc5 => 0x94
  | .Esc6 => 0x95
  | .Esc7 => 0x96
  | .Esc8 => 0x97
  | .CurrentSensor => 0xC0
  | .Gps => 0xC2
  | .TbsBlackbox => 0xC4
  | .FlightController => 0xC8
  | .RaceTag => 0xCC
  | .VTX => 0xCE
  | .Handset => 0xEA
  | .Receiver => 0xEC
  | .Transmitter => 0xEE

/-- `PacketAddress::try_from_primitive` (`num_enum::TryFromPrimitive`). -/
def PacketAddress.tryFromPrimitive (b : Nat) : Option PacketAddress :=
  if b = 0x00 then some .Broadcast
  else if b = 0x0E then some .Cloud
  else if b = 0x10 then some .Usb
  else if b = 0x12 then some .Bluetooth
  else if b = 0x13 then some .WifiReceiver
  else if b = 0x14 then some .VideoReceiver
  else if b = 0x80 then some .TbsCorePnpPro
  else if b = 0x90 then some .Esc1
  else if b = 0x91 then some .Esc2
  else if b = 0x92 then some .Esc3
  else if b = 0x93 then some .Esc4
  else if b = 0x94 then some .Esc5
  else if b = 0x95 then some .Esc6
  else if b = 0x96 then some .Esc7
  else if b = 0x97 then some .Esc8
  else if b = 0xC0 then some .CurrentSensor
  else if b = 0xC2 then some .Gps
  else if b = 0xC4 then some .TbsBlackbox
  else if b = 0xC8 then some .FlightController
  else if b = 0xCC then some .RaceTag
  else if b = 0xCE then some .VTX
  else if b = 0xEA then some .Handset
  else if b = 0xEC then some .Receiver
  else if b = 0xEE then some .Transmitter
  else none

theorem PacketAddress.tryFromPrimitive_toU8 (a : PacketAddress) :
    PacketAddress.tryFromPrimitive a.toU8 = some a := by
  cases a <;> rfl

/-! ## Errors (`src/error.rs`, variants as used by `src/parser.rs`) -/

inductive CrsfParsingError where
  | UnexpectedPacketType (b : Nat)
  | PacketNotImlemented (b : Nat)
  | InvalidPayloadLength
  | InvalidPayload
  | BufferOverflow
deriving DecidableEq

inductive CrsfStreamError where
  | InvalidPacketLength
  | InvalidSync
  | InvalidCrc (calculated_crc : Nat) (packet_crc : Nat)
  | ParsingError (e : CrsfParsingError)
deriving DecidableEq

/-! ## Parser (`src/parser.rs`) -/

inductive State where
  | AwaitingSync
  | AwaitingLenth
  | Reading (n : Nat)
  | AwaitingCrc
deriving DecidableEq

structure CrsfParser where
  buffer : List Nat
  state : State
  position : Nat
deriving DecidableEq

inductive ParseResult (T : Type) where
  | Complete (t : T)
  | Incomplete
  | Error (e : CrsfStreamError)
deriving DecidableEq

/-- `RawCrsfPacket<'a>`: a validated window of frame bytes. -/
structure RawCrsfPacket where
  bytes : List Nat
deriving DecidableEq

/-- `RawCrsfPacket::new`. -/
def RawCrsfPacket.new (bytes : List Nat) : Option RawCrsfPacket :=
  if bytes.length ≥ 4 then some ⟨bytes⟩ else none

/-- `RawCrsfPacket::dst_addr`. -/
def RawCrsfPacket.dst_addr (p : RawCrsfPacket) : Nat :=
  p.bytes.getD 0 0

/-- `RawCrsfPacket::raw_packet_type`. -/
def RawCrsfPacket.raw_packet_type (p : RawCrsfPacket) : Nat :=
  p.bytes.getD 2 0

/-- `RawCrsfPacket::payload`: `bytes[3 .. len - 1]`. -/
def RawCrsfPacket.payload (p : RawCrsfPacket) : List Nat :=
  (p.bytes.dropLast).drop 3

/-- `RawCrsfPacket::crc`: the last byte. -/
def RawCrsfPacket.crc (p : RawCrsfPacket) : Nat :=
  p.bytes.getD (p.bytes.length - 1) 0

/-- `RawCrsfPacket::len`. -/
def RawCrsfPacket.len (p : RawCrsfPacket) : Nat :=
  p.bytes.length

def CRSF_MAX_PACKET_SIZE : Nat := 64
def CRSF_MIN_PACKET_SIZE : Nat := 4

/-- `CrsfParser::new`. -/
def CrsfParser.new : CrsfParser :=
  ⟨List.replicate CRSF_MAX_PACKET_SIZE 0, .AwaitingSync, 0⟩

/-- `CrsfParser::reset`. -/
def CrsfParser.reset (p : CrsfParser) : CrsfParser :=
  ⟨p.buffer, .AwaitingSync, 0⟩

/-- `CrsfParser::push_byte_raw`.  Returns the updated parser together with
the `ParseResult`.  In the `AwaitingCrc` arm the source resets and then
returns `Complete(RawCrsfPacket::new(&buffer[0 .. position + 1]).unwrap())`;
the `unwrap` is modelled with `Option.getD` (the buffer-safety theorems show
the window has length at least 4, so `new` returns `some`). -/
def CrsfParser.push_byte_raw (p : CrsfParser) (byte : Nat) :
    CrsfParser × ParseResult RawCrsfPacket :=
  match p.state with
  | .AwaitingSync =>
    if (PacketAddress.tryFromPrimitive byte).isSome then
      (⟨p.buffer.set 0 byte, .AwaitingLenth, 0⟩, .Incomplete)
    else
      (⟨p.buffer, .AwaitingSync, p.position⟩, .Error .InvalidSync)
  | .AwaitingLenth =>
    let n := byte + 2
    if ¬ (CRSF_MIN_PACKET_SIZE ≤ n ∧ n < CRSF_MAX_PACKET_SIZE) then
      (p.reset, .Error .InvalidPacketLength)
    else
      (⟨p.buffer.set 1 byte, .Reading (n - 1), 1⟩, .Incomplete)
  | .Reading n =>
    let pos := p.position + 1
    let buf := p.buffer.set pos byte
    if pos = n - 1 then
      (⟨buf, .AwaitingCrc, pos⟩, .Incomplete)
    else
      (⟨buf, .Reading n, pos⟩, .Incomplete)
  | .AwaitingCrc =>
    let pos := p.position + 1
    let buf := p.buffer.set pos byte
    let calculated_crc := crc8 ((buf.take pos).drop 2)
    let packet_crc := buf.getD pos 0
    if calculated_crc ≠ packet_crc then
      (⟨buf, .AwaitingSync, 0⟩, .Error (.InvalidCrc calculated_crc packet_crc))
    else
      let bytes := buf.take (pos + 1)
      (⟨buf, .AwaitingSync, 0⟩, .Complete ((RawCrsfPacket.new bytes).getD ⟨bytes⟩))

/-- Feed a list of bytes one at a time through `push_byte_raw`, collecting
each call's result. -/
def runRaw : CrsfParser → List Nat → CrsfParser × List (ParseResult RawCrsfPacket)
  | p, [] => (p, [])
  | p, b :: bs =>
    let step := p.push_byte_raw b
    let rest := runRaw step.1 bs
    (rest.1, step.2 :: rest.2)

-- Sanity anchor: the frame from the crate's own `test_construction` test.
example :
    (runRaw CrsfParser.new [0xC8, 12, 0x14, 16, 19, 99, 151, 1, 2, 3, 8, 88, 148, 252]).2 =
      List.replicate 13 .Incomplete ++
        [.Complete ⟨[0xC8, 12, 0x14, 16, 19, 99, 151, 1, 2, 3, 8, 88, 148, 252]⟩] := by
  decide

/-! ## BaroAltitude (`src/packets/baro_altitude.rs`)

Only the integer altitude packing/unpacking is embedded here; the vertical
speed functions use `f32` `libm` arithmetic and are outside the embedding. -/

structure BaroAltitude where
  altitude_packed : Nat
  vertical_speed_packed : Int
deriving DecidableEq

/-- `BaroAltitude::get_altitude_dm`. -/
def BaroAltitude.get_altitude_dm (p : BaroAltitude) : Int :=
  if p.altitude_packed &&& 0x8000 ≠ 0 then
    ((p.altitude_packed &&& 0x7fff : Nat) : Int) * 10
  else
    (p.altitude_packed : Int) - 10000

def ALT_MIN_DM : Int := 10000
def ALT_THRESHOLD_DM : Int := 0x8000 - ALT_MIN_DM
def ALT_MAX_DM : Int := 0x7ffe * 10 - 5

/-- `BaroAltitude::get_altitude_packed`.  Rust `i32` division truncates
toward zero (`Int.tdiv`); the final `| 0x8000` operates on a value that is
nonnegative in its branch, so it is modelled on `Nat` after `toNat`, and
`as u16` is the final `% 2 ^ 16`. -/
def BaroAltitude.get_altitude_packed (altitude_dm : Int) : Nat :=
  if altitude_dm < -ALT_MIN_DM then 0
  else if altitude_dm > ALT_MAX_DM then 0xfffe
  else if altitude_dm < ALT_THRESHOLD_DM then toUnsigned 16 (altitude_dm + ALT_MIN_DM)
  else ((((altitude_dm + 5).tdiv 10).toNat ||| 0x8000) % 2 ^ 16)

/-- Write consecutive bytes `xs` into `buf` starting at index `i`: models a
run of indexed stores `buffer[i] = x0; buffer[i+1] = x1; ...` or a
`copy_from_slice` into `buffer[i .. i + xs.len()]`. -/
def setConsec (buf : List Nat) (i : Nat) : List Nat → List Nat
  | [] => buf
  | x :: xs => setConsec (buf.set i x) (i + 1) xs

/-! ## RcChannelsPacked (`src/packets/rc_channels_packed.rs`)

Sixteen 11-bit channels packed LSB-first into 22 bytes.  The `u16` shifts
wrap at `2 ^ 16` (`&&& 65535`), the `as u8` casts are `&&& 255`, and the
11-bit mask initialisation `ch = [0x7FF; 16]` followed by `&=` is the
leading `2047 &&&`. -/

structure RcChannelsPacked where
  ch0 : Nat
  ch1 : Nat
  ch2 : Nat
  ch3 : Nat
  ch4 : Nat
  ch5 : Nat
  ch6 : Nat
  ch7 : Nat
  ch8 : Nat
  ch9 : Nat
  ch10 : Nat
  ch11 : Nat
  ch12 : Nat
  ch13 : Nat
  ch14 : Nat
  ch15 : Nat
deriving DecidableEq

/-- `16 * 11 / 8 = 22`. -/
def RcChannelsPacked.MIN_PAYLOAD_SIZE : Nat := 16 * 11 / 8

/-- The 22 payload bytes written by `RcChannelsPacked::to_bytes`. -/
def RcChannelsPacked.packedBytes (p : RcChannelsPacked) : List Nat :=
  [(p.ch0 &&& 255),
      (((p.ch0 >>> 8) ||| ((p.ch1 <<< 3) &&& 65535)) &&& 255),
      (((p.ch1 >>> 5) ||| ((p.ch2 <<< 6) &&& 65535)) &&& 255),
      ((p.ch2 >>> 2) &&& 255),
      (((p.ch2 >>> 10) ||| ((p.ch3 <<< 1) &&& 65535)) &&& 255),
      (((p.ch3 >>> 7) ||| ((p.ch4 <<< 4) &&& 65535)) &&& 255),
      (((p.ch4 >>> 4) ||| ((p.ch5 <<< 7) &&& 65535)) &&& 255),
      ((p.ch5 >>> 1) &&& 255),
      (((p.ch5 >>> 9) ||| ((p.ch6 <<< 2) &&& 65535)) &&& 255),
      (((p.ch6 >>> 6) ||| ((p.ch7 <<< 5) &&& 65535)) &&& 255),
      ((p.ch7 >>> 3) &&& 255),
      (p.ch8 &&& 255),
      (((p.ch8 >>> 8) ||| ((p.ch9 <<< 3) &&& 65535)) &&& 255),
      (((p.ch9 >>> 5) ||| ((p.ch10 <<< 6) &&& 65535)) &&& 255),
      ((p.ch10 >>> 2) &&& 255),
      (((p.ch10 >>> 10) ||| ((p.ch11 <<< 1) &&& 65535)) &&& 255),
      (((p.ch11 >>> 7) ||| ((p.ch12 <<< 4) &&& 65535)) &&& 255),
      (((p.ch12 >>> 4) ||| ((p.ch13 <<< 7) &&& 65535)) &&& 255),
      ((p.ch13 >>> 1) &&& 255),
      (((p.ch13 >>> 9) ||| ((p.ch14 <<< 2) &&& 65535)) &&& 255),
      (((p.ch14 >>> 6) ||| ((p.ch15 <<< 5) &&& 65535)) &&& 255),
      ((p.ch15 >>> 3) &&& 255)]

/-- `RcChannelsPacked::to_bytes` (via `validate_buffer_size`). -/
def RcChannelsPacked.to_bytes (p : RcChannelsPacked) (buffer : List Nat) :
    Except CrsfParsingError (Nat × List Nat) :=
  if buffer.length < RcChannelsPacked.MIN_PAYLOAD_SIZE then
    .error .BufferOverflow
  else
    .ok (RcChannelsPacked.MIN_PAYLOAD_SIZE, setConsec buffer 0 p.packedBytes)

/-- `RcChannelsPacked::from_bytes`. -/
def RcChannelsPacked.from_bytes (data : List Nat) :
    Except CrsfParsingError RcChannelsPacked :=
  if data.length ≠ RcChannelsPacked.MIN_PAYLOAD_SIZE then
    .error .InvalidPayloadLength
  else
    .ok {
      ch0 := (2047 &&& ((data.getD 0 0) ||| (((data.getD 1 0) <<< 8) &&& 65535))),
      ch1 := (2047 &&& (((data.getD 1 0) >>> 3) ||| (((data.getD 2 0) <<< 5) &&& 65535))),
      ch2 := (2047 &&& (((data.getD 2 0) >>> 6) ||| (((data.getD 3 0) <<< 2) &&& 65535) ||| (((data.getD 4 0) <<< 10) &&& 65535))),
      ch3 := (2047 &&& (((data.getD 4 0) >>> 1) ||| (((data.getD 5 0) <<< 7) &&& 65535))),
      ch4 := (2047 &&& (((data.getD 5 0) >>> 4) ||| (((data.getD 6 0) <<< 4) &&& 65535))),
      ch5 := (2047 &&& (((data.getD 6 0) >>> 7) ||| (((data.getD 7 0) <<< 1) &&& 65535) ||| (((data.getD 8 0) <<< 9) &&& 65535))),
      ch6 := (2047 &&& (((data.getD 8 0) >>> 2) ||| (((data.getD 9 0) <<< 6) &&& 65535))),
      ch7 := (2047 &&& (((data.getD 9 0) >>> 5) ||| (((data.getD 10 0) <<< 3) &&& 65535))),
      ch8 := (2047 &&& ((data.getD 11 0) ||| (((data.getD 12 0) <<< 8) &&& 65535))),
      ch9 := (2047 &&& (((data.getD 12 0) >>> 3) ||| (((data.getD 13 0) <<< 5) &&& 65535))),
      ch10 := (2047 &&& (((data.getD 13 0) >>> 6) ||| (((data.getD 14 0) <<< 2) &&& 65535) ||| (((data.getD 15 0) <<< 10) &&& 65535))),
      ch11 := (2047 &&& (((data.getD 15 0) >>> 1) ||| (((data.getD 16 0) <<< 7) &&& 65535))),
      ch12 := (2047 &&& (((data.getD 16 0) >>> 4) ||| (((data.getD 17 0) <<< 4) &&& 65535))),
      ch13 := (2047 &&& (((data.getD 17 0) >>> 7) ||| (((data.getD 18 0) <<< 1) &&& 65535) ||| (((data.getD 19 0) <<< 9) &&& 65535))),
      ch14 := (2047 &&& (((data.getD 19 0) >>> 2) ||| (((data.getD 20 0) <<< 6) &&& 65535))),
      ch15 := (2047 &&& (((data.getD 20 0) >>> 5) ||| (((data.getD 21 0) <<< 3) &&& 65535))) }

/-! ### Frame well-formedness and parser invariant -/

def isValidAddressByte (b : Nat) : Bool :=
  (PacketAddress.tryFromPrimitive b).isSome

/-- A complete well-formed wire frame `[address][length][type][payload...][crc]`. -/
def WellFormedFrame (f : List Nat) : Prop :=
  4 ≤ f.length ∧ f.length < 64 ∧
  isValidAddressByte (f.getD 0 0) = true ∧
  f.getD 1 0 = f.length - 2 ∧
  f.getD (f.length - 1) 0 = crc8 ((f.take (f.length - 1)).drop 2)

/-- State invariant maintained by `push_byte_raw` from `CrsfParser::new`. -/
def ParserInv (p : CrsfParser) : Prop :=
  p.buffer.length = 64 ∧
  match p.state with
  | .AwaitingSync => True
  | .AwaitingLenth => p.position = 0
  | .Reading n =>
      3 ≤ n ∧ n ≤ 62 ∧ 1 ≤ p.position ∧ p.position ≤ n - 2 ∧ p.buffer.getD 1 0 = n - 1
  | .AwaitingCrc => 2 ≤ p.position ∧ p.position ≤ 61 ∧ p.buffer.getD 1 0 = p.position

/-- The buffer index stored to by `push_byte_raw`, mirroring the indexed
stores of each arm in the source; `none` when the arm performs no store. -/
def writeIndex (p : CrsfParser) (b : Nat) : Option Nat :=
  match p.state with
  | .AwaitingSync =>
      if (PacketAddress.tryFromPrimitive b).isSome then some 0 else none
  | .AwaitingLenth =>
      if ¬ (CRSF_MIN_PACKET_SIZE ≤ b + 2 ∧ b + 2 < CRSF_MAX_PACKET_SIZE) then none
      else some 1
  | .Reading _ => some (p.position + 1)
  | .AwaitingCrc => some (p.position + 1)

/-! ## PacketType (`src/packets/mod.rs`) -/

inductive PacketType where
  | Gps
  | GpsTime
  | GpsExtended
  | Vario
  | BatterySensor
  | BaroAltitude
  | AirSpeed
  | Rpm
  | Temp
  | Voltages
  | VtxTelemetry
  | Heartbeat
  | LinkStatistics
  | RcChannelsPacked
  | SubsetRcChannelsPacked
  | LinkStatisticsRx
  | LinkStatisticsTx
  | Attitude
  | MavLinkFc
  | FlightMode
  | EspNow
  | DevicePing
  | DeviceInfo
  | ParameterSettingsEntry
  | ParameterRead
  | ParameterWrite
  | ElrsStatus
  | Command
  | RadioId
  | KissRequest
  | KissResponse
  | MspRequest
  | MspResponse
  | MspWrite
  | ArdupilotResponse
  | MavlinkEnvelope
deriving DecidableEq

/-- The `repr(u8)` discriminant of each `PacketType`. -/
def PacketType.toU8 : PacketType → Nat
  | .Gps => 0x02
  | .GpsTime => 0x03
  | .GpsExtended => 0x06
  | .Vario => 0x07
  | .BatterySensor => 0x08
  | .BaroAltitude => 0x09
  | .AirSpeed => 0x0A
  | .Rpm => 0x0C
  | .Temp => 0x0D
  | .Voltages => 0x0E
  | .VtxTelemetry => 0x10
  | .Heartbeat => 0x0B
  | .LinkStatistics => 0x14
  | .RcChannelsPacked => 0x16
  | .SubsetRcChannelsPacked => 0x17
  | .LinkStatisticsRx => 0x1C
  | .LinkStatisticsTx => 0x1D
  | .Attitude => 0x1E
  | .MavLinkFc => 0x1F
  | .FlightMode => 0x21
  | .EspNow => 0x22
  | .DevicePing => 0x28
  | .DeviceInfo => 0x29
  | .ParameterSettingsEntry => 0x2B
  | .ParameterRead => 0x2C
  | .ParameterWrite => 0x2D
  | .ElrsStatus => 0x2E
  | .Command => 0x32
  | .RadioId => 0x3A
  | .KissRequest => 0x78
  | .KissResponse => 0x79
  | .MspRequest => 0x7A
  | .MspResponse => 0x7B
  | .MspWrite => 0x7C
  | .ArdupilotResponse => 0x80
  | .MavlinkEnvelope => 0xAA

/-- `PacketType::try_from_primitive` (`num_enum::TryFromPrimitive`). -/
def PacketType.tryFromPrimitive (b : Nat) : Option PacketType :=
  if b = 0x02 then some .Gps
  else if b = 0x03 then some .GpsTime
  else if b = 0x06 then some .GpsExtended
  else if b = 0x07 then some .Vario
  else if b = 0x08 then some .BatterySensor
  else if b = 0x09 then some .BaroAltitude
  else if b = 0x0A then some .AirSpeed
  else if b = 0x0C then some .Rpm
  else if b = 0x0D then some .Temp
  else if b = 0x0E then some .Voltages
  else if b = 0x10 then some .VtxTelemetry
  else if b = 0x0B then some .Heartbeat
  else if b = 0x14 then some .LinkStatistics
  else if b = 0x16 then some .RcChannelsPacked
  else if b = 0x17 then some .SubsetRcChannelsPacked
  else if b = 0x1C then some .LinkStatisticsRx
  else if b = 0x1D then some .LinkStatisticsTx
  else if b = 0x1E then some .Attitude
  else if b = 0x1F then some .MavLinkFc
  else if b = 0x21 then some .FlightMode
  else if b = 0x22 then some .EspNow
  else if b = 0x28 then some .DevicePing
  else if b = 0x29 then some .DeviceInfo
  else if b = 0x2B then some .ParameterSettingsEntry
  else if b = 0x2C then some .ParameterRead
  else if b = 0x2D then some .ParameterWrite
  else if b = 0x2E then some .ElrsStatus
  else if b = 0x32 then some .Command
  else if b = 0x3A then some .RadioId
  else if b = 0x78 then some .KissRequest
  else if b = 0x79 then some .KissResponse
  else if b = 0x7A then some .MspRequest
  else if b = 0x7B then some .MspResponse
  else if b = 0x7C then some .MspWrite
  else if b = 0x80 then some .ArdupilotResponse
  else if b = 0xAA then some .MavlinkEnvelope
  else none

/-! ## Plain record codecs

Each codec embeds `from_bytes`/`to_bytes` of the corresponding
`src/packets/*.rs` file.  `to_bytes` returns the bytes written count paired
with the updated buffer; indexed stores and `copy_from_slice` runs are
`setConsec`.  `as u8` casts of signed fields are `toUnsigned 8`,
`iN::from_be_bytes` is `toSigned`/`beU16`/`beU32`. -/

structure LinkStatistics where
  uplink_rssi_1 : Nat
  uplink_rssi_2 : Nat
  uplink_link_quality : Nat
  uplink_snr : Int
  active_antenna : Nat
  rf_mode : Nat
  uplink_tx_power : Nat
  downlink_rssi : Nat
  downlink_link_quality : Nat
  downlink_snr : Int
deriving DecidableEq

def LinkStatistics.MIN_PAYLOAD_SIZE : Nat := 10

def LinkStatistics.to_bytes (r : LinkStatistics) (buffer : List Nat) :
    Except CrsfParsingError (Nat × List Nat) :=
  if buffer.length < LinkStatistics.MIN_PAYLOAD_SIZE then .error .BufferOverflow
  else .ok (LinkStatistics.MIN_PAYLOAD_SIZE, setConsec buffer 0
    [r.uplink_rssi_1, r.uplink_rssi_2, r.uplink_link_quality, toUnsigned 8 r.uplink_snr,
     r.active_antenna, r.rf_mode, r.uplink_tx_power, r.downlink_rssi,
     r.downlink_link_quality, toUnsigned 8 r.downlink_snr])

def LinkStatistics.from_bytes (data : List Nat) :
    Except CrsfParsingError LinkStatistics :=
  if data.length = LinkStatistics.MIN_PAYLOAD_SIZE then
    .ok { uplink_rssi_1 := data.getD 0 0, uplink_rssi_2 := data.getD 1 0,
          uplink_link_quality := data.getD 2 0, uplink_snr := toSigned 8 (data.getD 3 0),
          active_antenna := data.getD 4 0, rf_mode := data.getD 5 0,
          uplink_tx_power := data.getD 6 0, downlink_rssi := data.getD 7 0,
          downlink_link_quality := data.getD 8 0, downlink_snr := toSigned 8 (data.getD 9 0) }
  else .error .InvalidPayloadLength

structure LinkStatisticsRx where
  rssi_db : Nat
  rssi_percent : Nat
  link_quality : Nat
  snr : Int
  rf_power_db : Nat
deriving DecidableEq

def LinkStatisticsRx.MIN_PAYLOAD_SIZE : Nat := 5

def LinkStatisticsRx.to_bytes (r : LinkStatisticsRx) (buffer : List Nat) :
    Except CrsfParsingError (Nat × List Nat) :=
  if buffer.length < LinkStatisticsRx.MIN_PAYLOAD_SIZE then .error .BufferOverflow
  else .ok (LinkStatisticsRx.MIN_PAYLOAD_SIZE, setConsec buffer 0
    [r.rssi_db, r.rssi_percent, r.link_quality, toUnsigned 8 r.snr, r.rf_power_db])

def LinkStatisticsRx.from_bytes (data : List Nat) :
    Except CrsfParsingError LinkStatisticsRx :=
  if data.length ≠ LinkStatisticsRx.MIN_PAYLOAD_SIZE then .error .InvalidPayloadLength
  else .ok { rssi_db := data.getD 0 0, rssi_percent := data.getD 1 0,
             link_quality := data.getD 2 0, snr := toSigned 8 (data.getD 3 0),
             rf_power_db := data.getD 4 0 }

/-- `LinkStatisticsTx` has no `CrsfPacket` impl in this snapshot; its
inherent `to_bytes` writes its six bytes into a `[u8; 6]` with no result.
For the generic encoder it is modelled like the sibling
`LinkStatisticsRx` codec, returning `SERIALIZED_LEN`. -/
structure LinkStatisticsTx where
  rssi_db : Nat
  rssi_percent : Nat
  link_quality : Nat
  snr : Int
  rf_power_db : Nat
  fps : Nat
deriving DecidableEq

def LinkStatisticsTx.SERIALIZED_LEN : Nat := 6

def LinkStatisticsTx.to_bytes (r : LinkStatisticsTx) (buffer : List Nat) :
    Except CrsfParsingError (Nat × List Nat) :=
  if buffer.length < LinkStatisticsTx.SERIALIZED_LEN then .error .BufferOverflow
  else .ok (LinkStatisticsTx.SERIALIZED_LEN, setConsec buffer 0
    [r.rssi_db, r.rssi_percent, r.link_quality, toUnsigned 8 r.snr, r.rf_power_db, r.fps])

def LinkStatisticsTx.from_bytes (data : List Nat) :
    Except CrsfParsingError LinkStatisticsTx :=
  if data.length ≠ LinkStatisticsTx.SERIALIZED_LEN then .error .InvalidPayloadLength
  else .ok { rssi_db := data.getD 0 0, rssi_percent := data.getD 1 0,
             link_quality := data.getD 2 0, snr := toSigned 8 (data.getD 3 0),
             rf_power_db := data.getD 4 0, fps := data.getD 5 0 }

structure Gps where
  latitude : Int
  longitude : Int
  groundspeed : Nat
  heading : Nat
  altitude : Nat
  satellites : Nat
deriving DecidableEq

def Gps.MIN_PAYLOAD_SIZE : Nat := 15

def Gps.to_bytes (r : Gps) (buffer : List Nat) :
    Except CrsfParsingError (Nat × List Nat) :=
  if buffer.length < Gps.MIN_PAYLOAD_SIZE then .error .BufferOverflow
  else .ok (Gps.MIN_PAYLOAD_SIZE, setConsec buffer 0
    (beBytes4 (toUnsigned 32 r.latitude) ++ beBytes4 (toUnsigned 32 r.longitude) ++
     beBytes2 r.groundspeed ++ beBytes2 r.heading ++ beBytes2 r.altitude ++ [r.satellites]))

def Gps.from_bytes (data : List Nat) : Except CrsfParsingError Gps :=
  if data.length < Gps.MIN_PAYLOAD_SIZE then .error .InvalidPayloadLength
  else .ok { latitude := toSigned 32 (beU32 data 0), longitude := toSigned 32 (beU32 data 4),
             groundspeed := beU16 data 8, heading := beU16 data 10,
             altitude := beU16 data 12, satellites := data.getD 14 0 }

structure GpsTime where
  year : Int
  month : Nat
  day : Nat
  hour : Nat
  minute : Nat
  second : Nat
  millisecond : Nat
deriving DecidableEq

def GpsTime.MIN_PAYLOAD_SIZE : Nat := 9

def GpsTime.to_bytes (r : GpsTime) (buffer : List Nat) :
    Except CrsfParsingError (Nat × List Nat) :=
  if buffer.length < GpsTime.MIN_PAYLOAD_SIZE then .error .BufferOverflow
  else .ok (GpsTime.MIN_PAYLOAD_SIZE, setConsec buffer 0
    (beBytes2 (toUnsigned 16 r.year) ++ [r.month, r.day, r.hour, r.minute, r.second] ++
     beBytes2 r.millisecond))

def GpsTime.from_bytes (data : List Nat) : Except CrsfParsingError GpsTime :=
  if data.length ≠ GpsTime.MIN_PAYLOAD_SIZE then .error .InvalidPayloadLength
  else .ok { year := beI16 data 0, month := data.getD 2 0, day := data.getD 3 0,
             hour := data.getD 4 0, minute := data.getD 5 0, second := data.getD 6 0,
             millisecond := beU16 data 7 }

structure GpsExtended where
  fix_type : Nat
  n_speed : Int
  e_speed : Int
  v_speed : Int
  h_speed_acc : Int
  track_acc : Int
  alt_ellipsoid : Int
  h_acc : Int
  v_acc : Int
  reserved : Nat
  h_dop : Nat
  v_dop : Nat
deriving DecidableEq

def GpsExtended.MIN_PAYLOAD_SIZE : Nat := 20

def GpsExtended.to_bytes (r : GpsExtended) (buffer : List Nat) :
    Except CrsfParsingError (Nat × List Nat) :=
  if buffer.length < GpsExtended.MIN_PAYLOAD_SIZE then .error .BufferOverflow
  else .ok (GpsExtended.MIN_PAYLOAD_SIZE, setConsec buffer 0
    ([r.fix_type] ++ beBytes2 (toUnsigned 16 r.n_speed) ++ beBytes2 (toUnsigned 16 r.e_speed) ++
     beBytes2 (toUnsigned 16 r.v_speed) ++ beBytes2 (toUnsigned 16 r.h_speed_acc) ++
     beBytes2 (toUnsigned 16 r.track_acc) ++ beBytes2 (toUnsigned 16 r.alt_ellipsoid) ++
     beBytes2 (toUnsigned 16 r.h_acc) ++ beBytes2 (toUnsigned 16 r.v_acc) ++
     [r.reserved, r.h_dop, r.v_dop]))

def GpsExtended.from_bytes (data : List Nat) : Except CrsfParsingError GpsExtended :=
  if data.length ≠ GpsExtended.MIN_PAYLOAD_SIZE then .error .InvalidPayloadLength
  else .ok { fix_type := data.getD 0 0, n_speed := beI16 data 1, e_speed := beI16 data 3,
             v_speed := beI16 data 5, h_speed_acc := beI16 data 7, track_acc := beI16 data 9,
             alt_ellipsoid := beI16 data 11, h_acc := beI16 data 13, v_acc := beI16 data 15,
             reserved := data.getD 17 0, h_dop := data.getD 18 0, v_dop := data.getD 19 0 }

structure AirSpeed where
  speed : Nat
deriving DecidableEq

def AirSpeed.MIN_PAYLOAD_SIZE : Nat := 2

def AirSpeed.to_bytes (r : AirSpeed) (buffer : List Nat) :
    Except CrsfParsingError (Nat × List Nat) :=
  if buffer.length < AirSpeed.MIN_PAYLOAD_SIZE then .error .BufferOverflow
  else .ok (AirSpeed.MIN_PAYLOAD_SIZE, setConsec buffer 0 (beBytes2 r.speed))

/-- `AirSpeed::from_bytes` uses `data.get(0..2)`: it succeeds on any payload
of length at least 2 (no exact-length check). -/
def AirSpeed.from_bytes (data : List Nat) : Except CrsfParsingError AirSpeed :=
  if data.length < 2 then .error .InvalidPayloadLength
  else .ok { speed := beU16 data 0 }

structure VariometerSensor where
  v_speed : Int
deriving DecidableEq

def VariometerSensor.MIN_PAYLOAD_SIZE : Nat := 2

def VariometerSensor.to_bytes (r : VariometerSensor) (buffer : List Nat) :
    Except CrsfParsingError (Nat × List Nat) :=
  if buffer.length < VariometerSensor.MIN_PAYLOAD_SIZE then .error .BufferOverflow
  else .ok (VariometerSensor.MIN_PAYLOAD_SIZE, setConsec buffer 0
    (beBytes2 (toUnsigned 16 r.v_speed)))

def VariometerSensor.from_bytes (data : List Nat) :
    Except CrsfParsingError VariometerSensor :=
  if data.length ≠ VariometerSensor.MIN_PAYLOAD_SIZE then .error .InvalidPayloadLength
  else .ok { v_speed := beI16 data 0 }

structure Battery where
  voltage : Int
  current : Int
  capacity_used : Nat
  remaining : Nat
deriving DecidableEq

def Battery.MIN_PAYLOAD_SIZE : Nat := 8

def Battery.to_bytes (r : Battery) (buffer : List Nat) :
    Except CrsfParsingError (Nat × List Nat) :=
  if buffer.length < Battery.MIN_PAYLOAD_SIZE then .error .BufferOverflow
  else .ok (Battery.MIN_PAYLOAD_SIZE, setConsec buffer 0
    (beBytes2 (toUnsigned 16 r.voltage) ++ beBytes2 (toUnsigned 16 r.current) ++
     (beBytes4 r.capacity_used).drop 1 ++ [r.remaining]))

def Battery.from_bytes (data : List Nat) : Except CrsfParsingError Battery :=
  if data.length ≠ Battery.MIN_PAYLOAD_SIZE then .error .InvalidPayloadLength
  else .ok { voltage := beI16 data 0, current := beI16 data 2,
             capacity_used := (data.getD 4 0 * 256 + data.getD 5 0) * 256 + data.getD 6 0,
             remaining := data.getD 7 0 }

structure MavLinkFc where
  airspeed : Int
  base_mode : Nat
  custom_mode : Nat
  autopilot_type : Nat
  firmware_type : Nat
deriving DecidableEq

def MavLinkFc.MIN_PAYLOAD_SIZE : Nat := 9

def MavLinkFc.to_bytes (r : MavLinkFc) (buffer : List Nat) :
    Except CrsfParsingError (Nat × List Nat) :=
  if buffer.length < MavLinkFc.MIN_PAYLOAD_SIZE then .error .BufferOverflow
  else .ok (MavLinkFc.MIN_PAYLOAD_SIZE, setConsec buffer 0
    (beBytes2 (toUnsigned 16 r.airspeed) ++ [r.base_mode] ++ beBytes4 r.custom_mode ++
     [r.autopilot_type, r.firmware_type]))

def MavLinkFc.from_bytes (data : List Nat) : Except CrsfParsingError MavLinkFc :=
  if data.length = MavLinkFc.MIN_PAYLOAD_SIZE then
    .ok { airspeed := beI16 data 0, base_mode := data.getD 2 0,
          custom_mode := beU32 data 3, autopilot_type := data.getD 7 0,
          firmware_type := data.getD 8 0 }
  else .error .InvalidPayloadLength

structure VtxTelemetry where
  up_rssi_ant1 : Nat
  up_rssi_ant2 : Nat
  up_link_quality : Nat
  up_snr : Int
  active_antenna : Nat
  rf_profile : Nat
  up_rf_power : Nat
  down_rssi : Nat
  down_link_quality : Nat
  down_snr : Int
deriving DecidableEq

def VtxTelemetry.MIN_PAYLOAD_SIZE : Nat := 10

def VtxTelemetry.to_bytes (r : VtxTelemetry) (buffer : List Nat) :
    Except CrsfParsingError (Nat × List Nat) :=
  if buffer.length < VtxTelemetry.MIN_PAYLOAD_SIZE then .error .BufferOverflow
  else .ok (VtxTelemetry.MIN_PAYLOAD_SIZE, setConsec buffer 0
    [r.up_rssi_ant1, r.up_rssi_ant2, r.up_link_quality, toUnsigned 8 r.up_snr,
     r.active_antenna, r.rf_profile, r.up_rf_power, r.down_rssi, r.down_link_quality,
     toUnsigned 8 r.down_snr])

def VtxTelemetry.from_bytes (data : List Nat) : Except CrsfParsingError VtxTelemetry :=
  if data.length ≠ VtxTelemetry.MIN_PAYLOAD_SIZE then .error .InvalidPayloadLength
  else .ok { up_rssi_ant1 := data.getD 0 0, up_rssi_ant2 := data.getD 1 0,
             up_link_quality := data.getD 2 0, up_snr := toSigned 8 (data.getD 3 0),
             active_antenna := data.getD 4 0, rf_profile := data.getD 5 0,
             up_rf_power := data.getD 6 0, down_rssi := data.getD 7 0,
             down_link_quality := data.getD 8 0, down_snr := toSigned 8 (data.getD 9 0) }

structure Heartbeat where
  origin_address : Int
deriving DecidableEq

def Heartbeat.MIN_PAYLOAD_SIZE : Nat := 2

/-- `Heartbeat::to_bytes` performs no buffer-size validation in the source;
it stores the two bytes directly. -/
def Heartbeat.to_bytes (r : Heartbeat) (buffer : List Nat) :
    Except CrsfParsingError (Nat × List Nat) :=
  .ok (Heartbeat.MIN_PAYLOAD_SIZE, setConsec buffer 0 (beBytes2 (toUnsigned 16 r.origin_address)))

def Heartbeat.from_bytes (data : List Nat) : Except CrsfParsingError Heartbeat :=
  if data.length ≠ Heartbeat.MIN_PAYLOAD_SIZE then .error .InvalidPayloadLength
  else .ok { origin_address := beI16 data 0 }

structure EspNow where
  val1 : Nat
  val2 : Nat
  val3 : { l : List Nat // l.length = 15 }
  val4 : { l : List Nat // l.length = 15 }
  free_text : { l : List Nat // l.length = 20 }
deriving DecidableEq

def EspNow.MIN_PAYLOAD_SIZE : Nat := 52

def EspNow.to_bytes (r : EspNow) (buffer : List Nat) :
    Except CrsfParsingError (Nat × List Nat) :=
  if buffer.length < EspNow.MIN_PAYLOAD_SIZE then .error .BufferOverflow
  else .ok (EspNow.MIN_PAYLOAD_SIZE, setConsec buffer 0
    ([r.val1, r.val2] ++ r.val3.1 ++ r.val4.1 ++ r.free_text.1))

def EspNow.from_bytes (data : List Nat) : Except CrsfParsingError EspNow :=
  if h : data.length = EspNow.MIN_PAYLOAD_SIZE then
    .ok { val1 := data.getD 0 0, val2 := data.getD 1 0,
          val3 := ⟨(data.drop 2).take 15, by simp [h, EspNow.MIN_PAYLOAD_SIZE]⟩,
          val4 := ⟨(data.drop 17).take 15, by simp [h, EspNow.MIN_PAYLOAD_SIZE]⟩,
          free_text := ⟨(data.drop 32).take 20, by simp [h, EspNow.MIN_PAYLOAD_SIZE]⟩ }
  else .error .InvalidPayloadLength

/-! ## Variable-length codecs -/

/-- `chunks_exact(2)`: complete 2-chunks, remainder dropped. -/
def chunks2 : List Nat → List (List Nat)
  | a :: b :: rest => [a, b] :: chunks2 rest
  | _ => []

/-- `chunks_exact(3)`: complete 3-chunks, remainder dropped. -/
def chunks3 : List Nat → List (List Nat)
  | a :: b :: c :: rest => [a, b, c] :: chunks3 rest
  | _ => []

def utf8Cont (b : Nat) : Bool := 0x80 ≤ b && b ≤ 0xBF

/-- UTF-8 validity of a byte sequence (`core::str::from_utf8`). -/
def isValidUtf8 : List Nat → Bool
  | [] => true
  | b :: rest =>
    if b ≤ 0x7F then isValidUtf8 rest
    else if 0xC2 ≤ b && b ≤ 0xDF then
      match rest with
      | c1 :: r => utf8Cont c1 && isValidUtf8 r
      | [] => false
    else if b = 0xE0 then
      match rest with
      | c1 :: c2 :: r => (0xA0 ≤ c1 && c1 ≤ 0xBF) && utf8Cont c2 && isValidUtf8 r
      | _ => false
    else if (0xE1 ≤ b && b ≤ 0xEC) || b = 0xEE || b = 0xEF then
      match rest with
      | c1 :: c2 :: r => utf8Cont c1 && utf8Cont c2 && isValidUtf8 r
      | _ => false
    else if b = 0xED then
      match rest with
      | c1 :: c2 :: r => (0x80 ≤ c1 && c1 ≤ 0x9F) && utf8Cont c2 && isValidUtf8 r
      | _ => false
    else if b = 0xF0 then
      match rest with
      | c1 :: c2 :: c3 :: r => (0x90 ≤ c1 && c1 ≤ 0xBF) && utf8Cont c2 && utf8Cont c3 && isValidUtf8 r
      | _ => false
    else if 0xF1 ≤ b && b ≤ 0xF3 then
      match rest with
      | c1 :: c2 :: c3 :: r => utf8Cont c1 && utf8Cont c2 && utf8Cont c3 && isValidUtf8 r
      | _ => false
    else if b = 0xF4 then
      match rest with
      | c1 :: c2 :: c3 :: r => (0x80 ≤ c1 && c1 ≤ 0x8F) && utf8Cont c2 && utf8Cont c3 && isValidUtf8 r
      | _ => false
    else false

/-- `FlightMode` wraps a `heapless::String<59>`: a UTF-8 byte sequence of at
most 59 bytes. -/
structure FlightMode where
  flight_mode : { l : List Nat // l.length ≤ 59 ∧ isValidUtf8 l = true }
deriving DecidableEq

def FlightMode.MIN_PAYLOAD_SIZE : Nat := 1

def FlightMode.to_bytes (r : FlightMode) (buffer : List Nat) :
    Except CrsfParsingError (Nat × List Nat) :=
  let bytes := r.flight_mode.1
  let len_with_null := bytes.length + 1
  if buffer.length < len_with_null then .error .BufferOverflow
  else .ok (len_with_null, setConsec buffer 0 (bytes ++ [0]))

def FlightMode.from_bytes (data : List Nat) : Except CrsfParsingError FlightMode :=
  let null_pos := data.findIdx (· = 0)
  let s := data.take null_pos
  if hu : isValidUtf8 s = true then
    if h59 : 59 < s.length then .error .InvalidPayloadLength
    else .ok { flight_mode := ⟨s, by omega, hu⟩ }
  else .error .InvalidPayload

/-- `Rpm` wraps a `heapless::Vec<i32, 19>`. -/
structure Rpm where
  rpm_source_id : Nat
  rpm_values : { l : List Int // l.length ≤ 19 }
deriving DecidableEq

def Rpm.MIN_PAYLOAD_SIZE : Nat := 3

/-- `Rpm::to_bytes` performs no buffer-size validation in the source; it
stores `rpm_source_id` and then the low three bytes of each value. -/
def Rpm.to_bytes (r : Rpm) (buffer : List Nat) :
    Except CrsfParsingError (Nat × List Nat) :=
  .ok (1 + 3 * r.rpm_values.1.length, setConsec buffer 0
    (r.rpm_source_id :: r.rpm_values.1.flatMap (fun v => (beBytes4 (toUnsigned 32 v)).drop 1)))

/-- `Rpm::from_bytes`.  Each 3-byte chunk is sign-extended from 24 bits (the
source computes `(rpm << 8) >> 8` on the `i32`, i.e. `toSigned 24`).  The
`collect` into `heapless::Vec<i32, 19>` panics on overflow
(`Vec::from_iter`), which cannot happen for payloads below 62 bytes; the
model maps that unreachable overflow to `InvalidPayloadLength`. -/
def Rpm.from_bytes (data : List Nat) : Except CrsfParsingError Rpm :=
  if data.length < Rpm.MIN_PAYLOAD_SIZE then .error .InvalidPayloadLength
  else
    let rpm_values := (chunks3 (data.drop 1)).map
      (fun ch => toSigned 24 ((ch.getD 0 0 * 256 + ch.getD 1 0) * 256 + ch.getD 2 0))
    if h : rpm_values.length ≤ 19 then
      .ok { rpm_source_id := data.getD 0 0, rpm_values := ⟨rpm_values, h⟩ }
    else .error .InvalidPayloadLength

/-- `Temp` wraps a `heapless::Vec<i16, 20>`. -/
structure Temp where
  temp_source_id : Nat
  temperatures : { l : List Int // l.length ≤ 20 }
deriving DecidableEq

def Temp.MIN_PAYLOAD_SIZE : Nat := 3

def Temp.to_bytes (r : Temp) (buffer : List Nat) :
    Except CrsfParsingError (Nat × List Nat) :=
  let required_len := 1 + r.temperatures.1.length * 2
  if buffer.length < required_len then .error .BufferOverflow
  else .ok (required_len, setConsec buffer 0
    (r.temp_source_id :: r.temperatures.1.flatMap (fun v => beBytes2 (toUnsigned 16 v))))

/-- `Temp::from_bytes`.  The `collect` into `heapless::Vec<i16, 20>` panics
on overflow (`Vec::from_iter`), reachable for payloads of 43..=59 bytes; the
model maps that case to `InvalidPayloadLength`. -/
def Temp.from_bytes (data : List Nat) : Except CrsfParsingError Temp :=
  if data.length < Temp.MIN_PAYLOAD_SIZE then .error .InvalidPayloadLength
  else
    let temperatures := (chunks2 (data.drop 1)).map
      (fun ch => toSigned 16 (ch.getD 0 0 * 256 + ch.getD 1 0))
    if h : temperatures.length ≤ 20 then
      .ok { temp_source_id := data.getD 0 0, temperatures := ⟨temperatures, h⟩ }
    else .error .InvalidPayloadLength

/-- `Voltages` wraps a `heapless::Vec<u16, 29>`. -/
structure Voltages where
  voltage_source_id : Nat
  voltage_values : { l : List Nat // l.length ≤ 29 }
deriving DecidableEq

def Voltages.MIN_PAYLOAD_SIZE : Nat := 3

def Voltages.to_bytes (r : Voltages) (buffer : List Nat) :
    Except CrsfParsingError (Nat × List Nat) :=
  let required_len := 1 + r.voltage_values.1.length * 2
  if buffer.length < required_len then .error .BufferOverflow
  else .ok (required_len, setConsec buffer 0
    (r.voltage_source_id :: r.voltage_values.1.flatMap (fun v => beBytes2 v)))

def Voltages.from_bytes (data : List Nat) : Except CrsfParsingError Voltages :=
  if data.length < Voltages.MIN_PAYLOAD_SIZE then .error .InvalidPayloadLength
  else
    let voltage_values := (chunks2 (data.drop 1)).map
      (fun ch => ch.getD 0 0 * 256 + ch.getD 1 0)
    if h : voltage_values.length ≤ 29 then
      .ok { voltage_source_id := data.getD 0 0, voltage_values := ⟨voltage_values, h⟩ }
    else .error .InvalidPayloadLength

/-- `MavlinkEnvelope` wraps a `heapless::Vec<u8, 58>`. -/
structure MavlinkEnvelope where
  total_chunks : Nat
  current_chunk : Nat
  data : { l : List Nat // l.length ≤ 58 }
deriving DecidableEq

def MavlinkEnvelope.MIN_PAYLOAD_SIZE : Nat := 2

def MavlinkEnvelope.to_bytes (r : MavlinkEnvelope) (buffer : List Nat) :
    Except CrsfParsingError (Nat × List Nat) :=
  let data_size := r.data.1.length
  if buffer.length < 2 + data_size then .error .BufferOverflow
  else .ok (2 + data_size, setConsec buffer 0
    ((((r.total_chunks <<< 4) &&& 255) ||| (r.current_chunk &&& 0x0F)) ::
      data_size % 256 :: r.data.1))

def MavlinkEnvelope.from_bytes (data : List Nat) :
    Except CrsfParsingError MavlinkEnvelope :=
  if data.length < MavlinkEnvelope.MIN_PAYLOAD_SIZE then .error .InvalidPayloadLength
  else
    let data_size := data.getD 1 0
    if data.length < 2 + data_size then .error .InvalidPayloadLength
    else if h : 58 < data_size then .error .InvalidPayloadLength
    else .ok { total_chunks := data.getD 0 0 >>> 4,
               current_chunk := data.getD 0 0 &&& 0x0F,
               data := ⟨(data.drop 2).take data_size, by simp; omega⟩ }


/-! ## BaroAltitude codec (`src/packets/baro_altitude.rs`) -/

def BaroAltitude.MIN_PAYLOAD_SIZE : Nat := 3

def BaroAltitude.to_bytes (r : BaroAltitude) (buffer : List Nat) :
    Except CrsfParsingError (Nat × List Nat) :=
  if buffer.length < BaroAltitude.MIN_PAYLOAD_SIZE then .error .BufferOverflow
  else .ok (BaroAltitude.MIN_PAYLOAD_SIZE, setConsec buffer 0
    (beBytes2 r.altitude_packed ++ [toUnsigned 8 r.vertical_speed_packed]))

def BaroAltitude.from_bytes (data : List Nat) : Except CrsfParsingError BaroAltitude :=
  if data.length ≠ BaroAltitude.MIN_PAYLOAD_SIZE then .error .InvalidPayloadLength
  else .ok { altitude_packed := beU16 data 0,
             vertical_speed_packed := toSigned 8 (data.getD 2 0) }

/-! ## Decoded packet and dispatch (`src/packets/mod.rs`) -/

inductive Packet where
  | LinkStatistics (r : LinkStatistics)
  | LinkStatisticsRx (r : LinkStatisticsRx)
  | LinkStatisticsTx (r : LinkStatisticsTx)
  | RCChannels (r : RcChannelsPacked)
  | Gps (r : Gps)
  | GpsTime (r : GpsTime)
  | GpsExtended (r : GpsExtended)
  | Vario (r : VariometerSensor)
  | Battery (r : Battery)
  | AirSpeed (r : AirSpeed)
  | BaroAltitude (r : BaroAltitude)
  | Rpm (r : Rpm)
  | Temp (r : Temp)
  | Voltages (r : Voltages)
  | VtxTelemetry (r : VtxTelemetry)
  | FlightMode (r : FlightMode)
  | Heartbeat (r : Heartbeat)
  | EspNow (r : EspNow)
  | MavlinkEnvelope (r : MavlinkEnvelope)
  | MavLinkFc (r : MavLinkFc)
  | NotImlemented (t : PacketType) (payload_len : Nat)
deriving DecidableEq

/-- `Packet::parse`: look up the wire type tag, dispatch to the matching
codec's `from_bytes` over the payload view (`?` propagates decode errors),
and fall back to `NotImlemented(tag, payload length)`.  A tag that is no
`PacketType` value at all is `UnexpectedPacketType`. -/
def Packet.parse (raw : RawCrsfPacket) : Except CrsfParsingError Packet :=
  match PacketType.tryFromPrimitive raw.raw_packet_type with
  | none => .error (.UnexpectedPacketType raw.raw_packet_type)
  | some packet_type =>
    let data := raw.payload
    match packet_type with
    | .LinkStatistics => (LinkStatistics.from_bytes data).map Packet.LinkStatistics
    | .LinkStatisticsTx => (LinkStatisticsTx.from_bytes data).map Packet.LinkStatisticsTx
    | .LinkStatisticsRx => (LinkStatisticsRx.from_bytes data).map Packet.LinkStatisticsRx
    | .RcChannelsPacked => (RcChannelsPacked.from_bytes data).map Packet.RCChannels
    | .Gps => (Gps.from_bytes data).map Packet.Gps
    | .GpsTime => (GpsTime.from_bytes data).map Packet.GpsTime
    | .GpsExtended => (GpsExtended.from_bytes data).map Packet.GpsExtended
    | .AirSpeed => (AirSpeed.from_bytes data).map Packet.AirSpeed
    | .BaroAltitude => (BaroAltitude.from_bytes data).map Packet.BaroAltitude
    | .BatterySensor => (Battery.from_bytes data).map Packet.Battery
    | .FlightMode => (FlightMode.from_bytes data).map Packet.FlightMode
    | .Rpm => (Rpm.from_bytes data).map Packet.Rpm
    | .Temp => (Temp.from_bytes data).map Packet.Temp
    | .Voltages => (Voltages.from_bytes data).map Packet.Voltages
    | .VtxTelemetry => (VtxTelemetry.from_bytes data).map Packet.VtxTelemetry
    | .Vario => (VariometerSensor.from_bytes data).map Packet.Vario
    | .EspNow => (EspNow.from_bytes data).map Packet.EspNow
    | .Heartbeat => (Heartbeat.from_bytes data).map Packet.Heartbeat
    | .MavLinkFc => (MavLinkFc.from_bytes data).map Packet.MavLinkFc
    | .MavlinkEnvelope => (MavlinkEnvelope.from_bytes data).map Packet.MavlinkEnvelope
    | _ => .ok (.NotImlemented packet_type data.length)

/-- The packet types with a codec arm in `Packet::parse`. -/
def isRegistered : PacketType → Bool
  | .LinkStatistics | .LinkStatisticsTx | .LinkStatisticsRx | .RcChannelsPacked
  | .Gps | .GpsTime | .GpsExtended | .AirSpeed | .BaroAltitude | .BatterySensor
  | .FlightMode | .Rpm | .Temp | .Voltages | .VtxTelemetry | .Vario | .EspNow
  | .Heartbeat | .MavLinkFc | .MavlinkEnvelope => true
  | _ => false

/-- The record types registered in the dispatch, as an index family. -/
inductive RegisteredType where
  | linkStatistics
  | linkStatisticsTx
  | linkStatisticsRx
  | rcChannelsPacked
  | gps
  | gpsTime
  | gpsExtended
  | airSpeed
  | baroAltitude
  | battery
  | flightMode
  | rpm
  | temp
  | voltages
  | vtxTelemetry
  | vario
  | espNow
  | heartbeat
  | mavLinkFc
  | mavlinkEnvelope
deriving DecidableEq

def RegisteredType.Rec : RegisteredType → Type
  | .linkStatistics => LinkStatistics
  | .linkStatisticsTx => LinkStatisticsTx
  | .linkStatisticsRx => LinkStatisticsRx
  | .rcChannelsPacked => RcChannelsPacked
  | .gps => Gps
  | .gpsTime => GpsTime
  | .gpsExtended => GpsExtended
  | .airSpeed => AirSpeed
  | .baroAltitude => BaroAltitude
  | .battery => Battery
  | .flightMode => FlightMode
  | .rpm => Rpm
  | .temp => Temp
  | .voltages => Voltages
  | .vtxTelemetry => VtxTelemetry
  | .vario => VariometerSensor
  | .espNow => EspNow
  | .heartbeat => Heartbeat
  | .mavLinkFc => MavLinkFc
  | .mavlinkEnvelope => MavlinkEnvelope

/-- Each registered type's `PACKET_TYPE` constant. -/
def RegisteredType.packetType : RegisteredType → PacketType
  | .linkStatistics => .LinkStatistics
  | .linkStatisticsTx => .LinkStatisticsTx
  | .linkStatisticsRx => .LinkStatisticsRx
  | .rcChannelsPacked => .RcChannelsPacked
  | .gps => .Gps
  | .gpsTime => .GpsTime
  | .gpsExtended => .GpsExtended
  | .airSpeed => .AirSpeed
  | .baroAltitude => .BaroAltitude
  | .battery => .BatterySensor
  | .flightMode => .FlightMode
  | .rpm => .Rpm
  | .temp => .Temp
  | .voltages => .Voltages
  | .vtxTelemetry => .VtxTelemetry
  | .vario => .Vario
  | .espNow => .EspNow
  | .heartbeat => .Heartbeat
  | .mavLinkFc => .MavLinkFc
  | .mavlinkEnvelope => .MavlinkEnvelope

def RegisteredType.fromBytes : (t : RegisteredType) → List Nat →
    Except CrsfParsingError t.Rec
  | .linkStatistics => LinkStatistics.from_bytes
  | .linkStatisticsTx => LinkStatisticsTx.from_bytes
  | .linkStatisticsRx => LinkStatisticsRx.from_bytes
  | .rcChannelsPacked => RcChannelsPacked.from_bytes
  | .gps => Gps.from_bytes
  | .gpsTime => GpsTime.from_bytes
  | .gpsExtended => GpsExtended.from_bytes
  | .airSpeed => AirSpeed.from_bytes
  | .baroAltitude => BaroAltitude.from_bytes
  | .battery => Battery.from_bytes
  | .flightMode => FlightMode.from_bytes
  | .rpm => Rpm.from_bytes
  | .temp => Temp.from_bytes
  | .voltages => Voltages.from_bytes
  | .vtxTelemetry => VtxTelemetry.from_bytes
  | .vario => VariometerSensor.from_bytes
  | .espNow => EspNow.from_bytes
  | .heartbeat => Heartbeat.from_bytes
  | .mavLinkFc => MavLinkFc.from_bytes
  | .mavlinkEnvelope => MavlinkEnvelope.from_bytes

def RegisteredType.toBytes : (t : RegisteredType) → t.Rec → List Nat →
    Except CrsfParsingError (Nat × List Nat)
  | .linkStatistics => LinkStatistics.to_bytes
  | .linkStatisticsTx => LinkStatisticsTx.to_bytes
  | .linkStatisticsRx => LinkStatisticsRx.to_bytes
  | .rcChannelsPacked => RcChannelsPacked.to_bytes
  | .gps => Gps.to_bytes
  | .gpsTime => GpsTime.to_bytes
  | .gpsExtended => GpsExtended.to_bytes
  | .airSpeed => AirSpeed.to_bytes
  | .baroAltitude => BaroAltitude.to_bytes
  | .battery => Battery.to_bytes
  | .flightMode => FlightMode.to_bytes
  | .rpm => Rpm.to_bytes
  | .temp => Temp.to_bytes
  | .voltages => Voltages.to_bytes
  | .vtxTelemetry => VtxTelemetry.to_bytes
  | .vario => VariometerSensor.to_bytes
  | .espNow => EspNow.to_bytes
  | .heartbeat => Heartbeat.to_bytes
  | .mavLinkFc => MavLinkFc.to_bytes
  | .mavlinkEnvelope => MavlinkEnvelope.to_bytes

/-- The tagged-union arm wrapping each registered record. -/
def RegisteredType.arm : (t : RegisteredType) → t.Rec → Packet
  | .linkStatistics => Packet.LinkStatistics
  | .linkStatisticsTx => Packet.LinkStatisticsTx
  | .linkStatisticsRx => Packet.LinkStatisticsRx
  | .rcChannelsPacked => Packet.RCChannels
  | .gps => Packet.Gps
  | .gpsTime => Packet.GpsTime
  | .gpsExtended => Packet.GpsExtended
  | .airSpeed => Packet.AirSpeed
  | .baroAltitude => Packet.BaroAltitude
  | .battery => Packet.Battery
  | .flightMode => Packet.FlightMode
  | .rpm => Packet.Rpm
  | .temp => Packet.Temp
  | .voltages => Packet.Voltages
  | .vtxTelemetry => Packet.VtxTelemetry
  | .vario => Packet.Vario
  | .espNow => Packet.EspNow
  | .heartbeat => Packet.Heartbeat
  | .mavLinkFc => Packet.MavLinkFc
  | .mavlinkEnvelope => Packet.MavlinkEnvelope

/-! ## Frame encoder (`write_packet_to_buffer`, `src/packets/mod.rs`) -/

/-- `MAX_PAYLOAD_SIZE = CRSF_MAX_PACKET_SIZE - 4`. -/
def MAX_PAYLOAD_SIZE : Nat := CRSF_MAX_PACKET_SIZE - 4

/-- `write_packet_to_buffer`: encode the payload into a zeroed 60-byte
scratch, fail closed with `BufferOverflow` when the output buffer cannot
hold `payload_size + 4`, otherwise store
`[dest][payload_size + 2][PACKET_TYPE][payload..][crc8(type :: payload)]`
into the buffer's prefix.  The returned buffer models the mutated output
buffer (unchanged on every error path, as in the source, where the size
check precedes every store). -/
def write_packet_to_buffer (t : RegisteredType) (buffer : List Nat)
    (dest : PacketAddress) (packet : t.Rec) :
    Except CrsfParsingError Nat × List Nat :=
  match t.toBytes packet (List.replicate MAX_PAYLOAD_SIZE 0) with
  | .error e => (.error e, buffer)
  | .ok (payload_size, payload_buf) =>
    if buffer.length < payload_size + 4 then (.error .BufferOverflow, buffer)
    else
      let payload := payload_buf.take payload_size
      let frame := [dest.toU8, (payload_size + 2) % 256, t.packetType.toU8] ++
        payload ++ [crc8 (t.packetType.toU8 :: payload)]
      (.ok (payload_size + 4), setConsec buffer 0 frame)

/-! ## Typed parsing (`CrsfParser::push_byte`) -/

/-- `CrsfParser::push_byte`: raw parse, then dispatch on completion. -/
def CrsfParser.push_byte (p : CrsfParser) (byte : Nat) :
    CrsfParser × ParseResult Packet :=
  match p.push_byte_raw byte with
  | (p2, .Complete raw) =>
    match Packet.parse raw with
    | .ok packet => (p2, .Complete packet)
    | .error e => (p2, .Error (.ParsingError e))
  | (p2, .Incomplete) => (p2, .Incomplete)
  | (p2, .Error e) => (p2, .Error e)

/-- Feed a list of bytes one at a time through `push_byte`. -/
def runTyped : CrsfParser → List Nat → CrsfParser × List (ParseResult Packet)
  | p, [] => (p, [])
  | p, b :: bs =>
    let step := p.push_byte b
    let rest := runTyped step.1 bs
    (rest.1, step.2 :: rest.2)

/-- The completion-dispatch on one raw result (the result component of
`push_byte` as a function of the result of `push_byte_raw`). -/
def liftResult (r : ParseResult RawCrsfPacket) : ParseResult Packet :=
  match r with
  | .Complete raw =>
    match Packet.parse raw with
    | .ok packet => .Complete packet
    | .error e => .Error (.ParsingError e)
  | .Incomplete => .Incomplete
  | .Error e => .Error e

def isComplete : ParseResult Packet → Bool
  | .Complete _ => true
  | _ => false

/-! ## Theorems -/

/-! ### List store lemmas -/

theorem take_set_succ (buf : List Nat) (i x : Nat) (h : i < buf.length) :
    (buf.set i x).take (i + 1) = buf.take i ++ [x] := by
  rw [List.set_take, List.set_eq_take_append_cons_drop,
    if_pos (by simp [List.length_take]; omega)]
  rw [List.take_take]
  have h1 : min i (i + 1) = i := by omega
  rw [h1]
  congr 1
  rw [List.drop_take]
  simp

theorem setConsec_eq_append : ∀ (xs buf : List Nat) (i : Nat),
    i + xs.length ≤ buf.length →
    setConsec buf i xs = buf.take i ++ xs ++ buf.drop (i + xs.length)
  | [], buf, i, _ => by simp [setConsec]
  | x :: xs, buf, i, h => by
    have hlen : i < buf.length := by simp at h; omega
    rw [setConsec, setConsec_eq_append xs (buf.set i x) (i + 1) (by simp at h ⊢; omega)]
    rw [List.drop_set, if_pos (by simp at h; omega)]
    rw [take_set_succ buf i x hlen]
    have harith : i + 1 + xs.length = i + (x :: xs).length := by simp; omega
    rw [harith]
    simp

/-! ### `Nat.testBit` helpers -/

theorem tb255 (i : Nat) : Nat.testBit 255 i = decide (i < 8) := by
  have h := Nat.testBit_two_pow_sub_one (n := 8) (i := i)
  norm_num at h
  exact h

theorem tb2047 (i : Nat) : Nat.testBit 2047 i = decide (i < 11) := by
  have h := Nat.testBit_two_pow_sub_one (n := 11) (i := i)
  norm_num at h
  exact h

theorem tb65535 (i : Nat) : Nat.testBit 65535 i = decide (i < 16) := by
  have h := Nat.testBit_two_pow_sub_one (n := 16) (i := i)
  norm_num at h
  exact h

theorem tbFalse {x : Nat} {w : Nat} (h : x < 2 ^ w) {i : Nat} (hi : w ≤ i) :
    x.testBit i = false :=
  Nat.testBit_lt_two_pow (lt_of_lt_of_le h (Nat.pow_le_pow_right (by omega) hi))

theorem tbFalse11 {x : Nat} (h : x < 2048) {i : Nat} (hi : 11 ≤ i) :
    x.testBit i = false :=
  tbFalse (w := 11) (by norm_num at h ⊢; omega) hi

theorem tbFalse8 {x : Nat} (h : x < 256) {i : Nat} (hi : 8 ≤ i) :
    x.testBit i = false :=
  tbFalse (w := 8) (by norm_num at h ⊢; omega) hi

/-! ### RcChannelsPacked lemmas -/

theorem packedBytes_length (p : RcChannelsPacked) : p.packedBytes.length = 22 := by
  simp [RcChannelsPacked.packedBytes]

theorem rc_to_bytes_ok (p : RcChannelsPacked) (buffer : List Nat)
    (hlen : buffer.length = 22) :
    p.to_bytes buffer = .ok (22, p.packedBytes) := by
  rw [RcChannelsPacked.to_bytes]
  rw [if_neg (by simp [RcChannelsPacked.MIN_PAYLOAD_SIZE, hlen])]
  rw [setConsec_eq_append _ _ _ (by simp [packedBytes_length, hlen])]
  simp [packedBytes_length, hlen, RcChannelsPacked.MIN_PAYLOAD_SIZE]

-- sanity: hardware payload from the crate's `test_rc_channels_from_hardware_bytes`
theorem rc_sanity_hardware_payload :
    RcChannelsPacked.from_bytes
      [0xE0, 0x03, 0x1F, 0x58, 0xC0, 0x07, 0x16, 0xB0, 0x80, 0x05, 0x2C,
       0x60, 0x01, 0x0B, 0xF8, 0xC0, 0x07, 0x00, 0x00, 0x00, 0x00, 0x00] =
    .ok ⟨992, 992, 352, 992, 352, 352, 352, 352, 352, 352, 992, 992, 0, 0, 0, 0⟩ := rfl

theorem rc_rt_ch0 (c0 c1 : Nat) (h0 : c0 < 2048) (h1 : c1 < 2048) :
    (2047 &&& ((c0 &&& 255) ||| (((((c0 >>> 8) ||| ((c1 <<< 3) &&& 65535)) &&& 255) <<< 8) &&& 65535))) = c0 := by
  apply Nat.eq_of_testBit_eq
  intro i
  rcases Nat.lt_or_ge i 11 with hi | hi
  · interval_cases i <;>
      simp [Nat.testBit_lor, Nat.testBit_and, Nat.testBit_shiftLeft, Nat.testBit_shiftRight,
        tb255, tb2047, tb65535, tbFalse11 h0, tbFalse11 h1]
  · have hn : ¬ i < 11 := by omega
    simp [Nat.testBit_and, tb2047, hn, tbFalse11 h0 hi]

theorem rc_rt_ch1 (c0 c1 c2 : Nat) (h0 : c0 < 2048) (h1 : c1 < 2048) (h2 : c2 < 2048) :
    (2047 &&& (((((c0 >>> 8) ||| ((c1 <<< 3) &&& 65535)) &&& 255) >>> 3) ||| (((((c1 >>> 5) ||| ((c2 <<< 6) &&& 65535)) &&& 255) <<< 5) &&& 65535))) = c1 := by
  apply Nat.eq_of_testBit_eq
  intro i
  rcases Nat.lt_or_ge i 11 with hi | hi
  · interval_cases i <;>
      simp [Nat.testBit_lor, Nat.testBit_and, Nat.testBit_shiftLeft, Nat.testBit_shiftRight,
        tb255, tb2047, tb65535, tbFalse11 h0, tbFalse11 h1, tbFalse11 h2]
  · have hn : ¬ i < 11 := by omega
    simp [Nat.testBit_and, tb2047, hn, tbFalse11 h1 hi]

theorem rc_rt_ch2 (c1 c2 c3 : Nat) (h1 : c1 < 2048) (h2 : c2 < 2048) (h3 : c3 < 2048) :
    (2047 &&& (((((c1 >>> 5) ||| ((c2 <<< 6) &&& 65535)) &&& 255) >>> 6) ||| ((((c2 >>> 2) &&& 255) <<< 2) &&& 65535) ||| (((((c2 >>> 10) ||| ((c3 <<< 1) &&& 65535)) &&& 255) <<< 10) &&& 65535))) = c2 := by
  apply Nat.eq_of_testBit_eq
  intro i
  rcases Nat.lt_or_ge i 11 with hi | hi
  · interval_cases i <;>
      simp [Nat.testBit_lor, Nat.testBit_and, Nat.testBit_shiftLeft, Nat.testBit_shiftRight,
        tb255, tb2047, tb65535, tbFalse11 h1, tbFalse11 h2, tbFalse11 h3]
  · have hn : ¬ i < 11 := by omega
    simp [Nat.testBit_and, tb2047, hn, tbFalse11 h2 hi]

theorem rc_rt_ch3 (c2 c3 c4 : Nat) (h2 : c2 < 2048) (h3 : c3 < 2048) (h4 : c4 < 2048) :
    (2047 &&& (((((c2 >>> 10) ||| ((c3 <<< 1) &&& 65535)) &&& 255) >>> 1) ||| (((((c3 >>> 7) ||| ((c4 <<< 4) &&& 65535)) &&& 255) <<< 7) &&& 65535))) = c3 := by
  apply Nat.eq_of_testBit_eq
  intro i
  rcases Nat.lt_or_ge i 11 with hi | hi
  · interval_cases i <;>
      simp [Nat.testBit_lor, Nat.testBit_and, Nat.testBit_shiftLeft, Nat.testBit_shiftRight,
        tb255, tb2047, tb65535, tbFalse11 h2, tbFalse11 h3, tbFalse11 h4]
  · have hn : ¬ i < 11 := by omega
    simp [Nat.testBit_and, tb2047, hn, tbFalse11 h3 hi]

theorem rc_rt_ch4 (c3 c4 c5 : Nat) (h3 : c3 < 2048) (h4 : c4 < 2048) (h5 : c5 < 2048) :
    (2047 &&& (((((c3 >>> 7) ||| ((c4 <<< 4) &&& 65535)) &&& 255) >>> 4) ||| (((((c4 >>> 4) ||| ((c5 <<< 7) &&& 65535)) &&& 255) <<< 4) &&& 65535))) = c4 := by
  apply Nat.eq_of_testBit_eq
  intro i
  rcases Nat.lt_or_ge i 11 with hi | hi
  · interval_cases i <;>
      simp [Nat.testBit_lor, Nat.testBit_and, Nat.testBit_shiftLeft, Nat.testBit_shiftRight,
        tb255, tb2047, tb65535, tbFalse11 h3, tbFalse11 h4, tbFalse11 h5]
  · have hn : ¬ i < 11 := by omega
    simp [Nat.testBit_and, tb2047, hn, tbFalse11 h4 hi]

theorem rc_rt_ch5 (c4 c5 c6 : Nat) (h4 : c4 < 2048) (h5 : c5 < 2048) (h6 : c6 < 2048) :
    (2047 &&& (((((c4 >>> 4) ||| ((c5 <<< 7) &&& 65535)) &&& 255) >>> 7) ||| ((((c5 >>> 1) &&& 255) <<< 1) &&& 65535) ||| (((((c5 >>> 9) ||| ((c6 <<< 2) &&& 65535)) &&& 255) <<< 9) &&& 65535))) = c5 := by
  apply Nat.eq_of_testBit_eq
  intro i
  rcases Nat.lt_or_ge i 11 with hi | hi
  · interval_cases i <;>
      simp [Nat.testBit_lor, Nat.testBit_and, Nat.testBit_shiftLeft, Nat.testBit_shiftRight,
        tb255, tb2047, tb65535, tbFalse11 h4, tbFalse11 h5, tbFalse11 h6]
  · have hn : ¬ i < 11 := by omega
    simp [Nat.testBit_and, tb2047, hn, tbFalse11 h5 hi]

theorem rc_rt_ch6 (c5 c6 c7 : Nat) (h5 : c5 < 2048) (h6 : c6 < 2048) (h7 : c7 < 2048) :
    (2047 &&& (((((c5 >>> 9) ||| ((c6 <<< 2) &&& 65535)) &&& 255) >>> 2) ||| (((((c6 >>> 6) ||| ((c7 <<< 5) &&& 65535)) &&& 255) <<< 6) &&& 65535))) = c6 := by
  apply Nat.eq_of_testBit_eq
  intro i
  rcases Nat.lt_or_ge i 11 with hi | hi
  · interval_cases i <;>
      simp [Nat.testBit_lor, Nat.testBit_and, Nat.testBit_shiftLeft, Nat.testBit_shiftRight,
        tb255, tb2047, tb65535, tbFalse11 h5, tbFalse11 h6, tbFalse11 h7]
  · have hn : ¬ i < 11 := by omega
    simp [Nat.testBit_and, tb2047, hn, tbFalse11 h6 hi]

theorem rc_rt_ch7 (c6 c7 : Nat) (h6 : c6 < 2048) (h7 : c7 < 2048) :
    (2047 &&& (((((c6 >>> 6) ||| ((c7 <<< 5) &&& 65535)) &&& 255) >>> 5) ||| ((((c7 >>> 3) &&& 255) <<< 3) &&& 65535))) = c7 := by
  apply Nat.eq_of_testBit_eq
  intro i
  rcases Nat.lt_or_ge i 11 with hi | hi
  · interval_cases i <;>
      simp [Nat.testBit_lor, Nat.testBit_and, Nat.testBit_shiftLeft, Nat.testBit_shiftRight,
        tb255, tb2047, tb65535, tbFalse11 h6, tbFalse11 h7]
  · have hn : ¬ i < 11 := by omega
    simp [Nat.testBit_and, tb2047, hn, tbFalse11 h7 hi]

theorem rc_rt_ch8 (c8 c9 : Nat) (h8 : c8 < 2048) (h9 : c9 < 2048) :
    (2047 &&& ((c8 &&& 255) ||| (((((c8 >>> 8) ||| ((c9 <<< 3) &&& 65535)) &&& 255) <<< 8) &&& 65535))) = c8 := by
  apply Nat.eq_of_testBit_eq
  intro i
  rcases Nat.lt_or_ge i 11 with hi | hi
  · interval_cases i <;>
      simp [Nat.testBit_lor, Nat.testBit_and, Nat.testBit_shiftLeft, Nat.testBit_shiftRight,
        tb255, tb2047, tb65535, tbFalse11 h8, tbFalse11 h9]
  · have hn : ¬ i < 11 := by omega
    simp [Nat.testBit_and, tb2047, hn, tbFalse11 h8 hi]

theorem rc_rt_ch9 (c8 c9 c10 : Nat) (h8 : c8 < 2048) (h9 : c9 < 2048) (h10 : c10 < 2048) :
    (2047 &&& (((((c8 >>> 8) ||| ((c9 <<< 3) &&& 65535)) &&& 255) >>> 3) ||| (((((c9 >>> 5) ||| ((c10 <<< 6) &&& 65535)) &&& 255) <<< 5) &&& 65535))) = c9 := by
  apply Nat.eq_of_testBit_eq
  intro i
  rcases Nat.lt_or_ge i 11 with hi | hi
  · interval_cases i <;>
      simp [Nat.testBit_lor, Nat.testBit_and, Nat.testBit_shiftLeft, Nat.testBit_shiftRight,
        tb255, tb2047, tb65535, tbFalse11 h8, tbFalse11 h9, tbFalse11 h10]
  · have hn : ¬ i < 11 := by omega
    simp [Nat.testBit_and, tb2047, hn, tbFalse11 h9 hi]

theorem rc_rt_ch10 (c9 c10 c11 : Nat) (h9 : c9 < 2048) (h10 : c10 < 2048) (h11 : c11 < 2048) :
    (2047 &&& (((((c9 >>> 5) ||| ((c10 <<< 6) &&& 65535)) &&& 255) >>> 6) ||| ((((c10 >>> 2) &&& 255) <<< 2) &&& 65535) ||| (((((c10 >>> 10) ||| ((c11 <<< 1) &&& 65535)) &&& 255) <<< 10) &&& 65535))) = c10 := by
  apply Nat.eq_of_testBit_eq
  intro i
  rcases Nat.lt_or_ge i 11 with hi | hi
  · interval_cases i <;>
      simp [Nat.testBit_lor, Nat.testBit_and, Nat.testBit_shiftLeft, Nat.testBit_shiftRight,
        tb255, tb2047, tb65535, tbFalse11 h9, tbFalse11 h10, tbFalse11 h11]
  · have hn : ¬ i < 11 := by omega
    simp [Nat.testBit_and, tb2047, hn, tbFalse11 h10 hi]

theorem rc_rt_ch11 (c10 c11 c12 : Nat) (h10 : c10 < 2048) (h11 : c11 < 2048) (h12 : c12 < 2048) :
    (2047 &&& (((((c10 >>> 10) ||| ((c11 <<< 1) &&& 65535)) &&& 255) >>> 1) ||| (((((c11 >>> 7) ||| ((c12 <<< 4) &&& 65535)) &&& 255) <<< 7) &&& 65535))) = c11 := by
  apply Nat.eq_of_testBit_eq
  intro i
  rcases Nat.lt_or_ge i 11 with hi | hi
  · interval_cases i <;>
      simp [Nat.testBit_lor, Nat.testBit_and, Nat.testBit_shiftLeft, Nat.testBit_shiftRight,
        tb255, tb2047, tb65535, tbFalse11 h10, tbFalse11 h11, tbFalse11 h12]
  · have hn : ¬ i < 11 := by omega
    simp [Nat.testBit_and, tb2047, hn, tbFalse11 h11 hi]

theorem rc_rt_ch12 (c11 c12 c13 : Nat) (h11 : c11 < 2048) (h12 : c12 < 2048) (h13 : c13 < 2048) :
    (2047 &&& (((((c11 >>> 7) ||| ((c12 <<< 4) &&& 65535)) &&& 255) >>> 4) ||| (((((c12 >>> 4) ||| ((c13 <<< 7) &&& 65535)) &&& 255) <<< 4) &&& 65535))) = c12 := by
  apply Nat.eq_of_testBit_eq
  intro i
  rcases Nat.lt_or_ge i 11 with hi | hi
  · interval_cases i <;>
      simp [Nat.testBit_lor, Nat.testBit_and, Nat.testBit_shiftLeft, Nat.testBit_shiftRight,
        tb255, tb2047, tb65535, tbFalse11 h11, tbFalse11 h12, tbFalse11 h13]
  · have hn : ¬ i < 11 := by omega
    simp [Nat.testBit_and, tb2047, hn, tbFalse11 h12 hi]

theorem rc_rt_ch13 (c12 c13 c14 : Nat) (h12 : c12 < 2048) (h13 : c13 < 2048) (h14 : c14 < 2048) :
    (2047 &&& (((((c12 >>> 4) ||| ((c13 <<< 7) &&& 65535)) &&& 255) >>> 7) ||| ((((c13 >>> 1) &&& 255) <<< 1) &&& 65535) ||| (((((c13 >>> 9) ||| ((c14 <<< 2) &&& 65535)) &&& 255) <<< 9) &&& 65535))) = c13 := by
  apply Nat.eq_of_testBit_eq
  intro i
  rcases Nat.lt_or_ge i 11 with hi | hi
  · interval_cases i <;>
      simp [Nat.testBit_lor, Nat.testBit_and, Nat.testBit_shiftLeft, Nat.testBit_shiftRight,
        tb255, tb2047, tb65535, tbFalse11 h12, tbFalse11 h13, tbFalse11 h14]
  · have hn : ¬ i < 11 := by omega
    simp [Nat.testBit_and, tb2047, hn, tbFalse11 h13 hi]

theorem rc_rt_ch14 (c13 c14 c15 : Nat) (h13 : c13 < 2048) (h14 : c14 < 2048) (h15 : c15 < 2048) :
    (2047 &&& (((((c13 >>> 9) ||| ((c14 <<< 2) &&& 65535)) &&& 255) >>> 2) ||| (((((c14 >>> 6) ||| ((c15 <<< 5) &&& 65535)) &&& 255) <<< 6) &&& 65535))) = c14 := by
  apply Nat.eq_of_testBit_eq
  intro i
  rcases Nat.lt_or_ge i 11 with hi | hi
  · interval_cases i <;>
      simp [Nat.testBit_lor, Nat.testBit_and, Nat.testBit_shiftLeft, Nat.testBit_shiftRight,
        tb255, tb2047, tb65535, tbFalse11 h13, tbFalse11 h14, tbFalse11 h15]
  · have hn : ¬ i < 11 := by omega
    simp [Nat.testBit_and, tb2047, hn, tbFalse11 h14 hi]

theorem rc_rt_ch15 (c14 c15 : Nat) (h14 : c14 < 2048) (h15 : c15 < 2048) :
    (2047 &&& (((((c14 >>> 6) ||| ((c15 <<< 5) &&& 65535)) &&& 255) >>> 5) ||| ((((c15 >>> 3) &&& 255) <<< 3) &&& 65535))) = c15 := by
  apply Nat.eq_of_testBit_eq
  intro i
  rcases Nat.lt_or_ge i 11 with hi | hi
  · interval_cases i <;>
      simp [Nat.testBit_lor, Nat.testBit_and, Nat.testBit_shiftLeft, Nat.testBit_shiftRight,
        tb255, tb2047, tb65535, tbFalse11 h14, tbFalse11 h15]
  · have hn : ¬ i < 11 := by omega
    simp [Nat.testBit_and, tb2047, hn, tbFalse11 h15 hi]

theorem rc_pb_b0 (d0 d1 : Nat) (h0 : d0 < 256) (h1 : d1 < 256) :
    ((2047 &&& (d0 ||| ((d1 <<< 8) &&& 65535))) &&& 255) = d0 := by
  apply Nat.eq_of_testBit_eq
  intro i
  rcases Nat.lt_or_ge i 8 with hi | hi
  · interval_cases i <;>
      simp [Nat.testBit_lor, Nat.testBit_and, Nat.testBit_shiftLeft, Nat.testBit_shiftRight,
        tb255, tb2047, tb65535, tbFalse8 h0, tbFalse8 h1]
  · have hn : ¬ i < 8 := by omega
    simp [Nat.testBit_and, tb255, hn, tbFalse8 h0 hi]

theorem rc_pb_b1 (d0 d1 d2 : Nat) (h0 : d0 < 256) (h1 : d1 < 256) (h2 : d2 < 256) :
    ((((2047 &&& (d0 ||| ((d1 <<< 8) &&& 65535))) >>> 8) ||| (((2047 &&& ((d1 >>> 3) ||| ((d2 <<< 5) &&& 65535))) <<< 3) &&& 65535)) &&& 255) = d1 := by
  apply Nat.eq_of_testBit_eq
  intro i
  rcases Nat.lt_or_ge i 8 with hi | hi
  · interval_cases i <;>
      simp [Nat.testBit_lor, Nat.testBit_and, Nat.testBit_shiftLeft, Nat.testBit_shiftRight,
        tb255, tb2047, tb65535, tbFalse8 h0, tbFalse8 h1, tbFalse8 h2]
  · have hn : ¬ i < 8 := by omega
    simp [Nat.testBit_and, tb255, hn, tbFalse8 h1 hi]

theorem rc_pb_b2 (d1 d2 d3 d4 : Nat) (h1 : d1 < 256) (h2 : d2 < 256) (h3 : d3 < 256) (h4 : d4 < 256) :
    ((((2047 &&& ((d1 >>> 3) ||| ((d2 <<< 5) &&& 65535))) >>> 5) ||| (((2047 &&& ((d2 >>> 6) ||| ((d3 <<< 2) &&& 65535) ||| ((d4 <<< 10) &&& 65535))) <<< 6) &&& 65535)) &&& 255) = d2 := by
  apply Nat.eq_of_testBit_eq
  intro i
  rcases Nat.lt_or_ge i 8 with hi | hi
  · interval_cases i <;>
      simp [Nat.testBit_lor, Nat.testBit_and, Nat.testBit_shiftLeft, Nat.testBit_shiftRight,
        tb255, tb2047, tb65535, tbFalse8 h1, tbFalse8 h2, tbFalse8 h3, tbFalse8 h4]
  · have hn : ¬ i < 8 := by omega
    simp [Nat.testBit_and, tb255, hn, tbFalse8 h2 hi]

theorem rc_pb_b3 (d2 d3 d4 : Nat) (h2 : d2 < 256) (h3 : d3 < 256) (h4 : d4 < 256) :
    (((2047 &&& ((d2 >>> 6) ||| ((d3 <<< 2) &&& 65535) ||| ((d4 <<< 10) &&& 65535))) >>> 2) &&& 255) = d3 := by
  apply Nat.eq_of_testBit_eq
  intro i
  rcases Nat.lt_or_ge i 8 with hi | hi
  · interval_cases i <;>
      simp [Nat.testBit_lor, Nat.testBit_and, Nat.testBit_shiftLeft, Nat.testBit_shiftRight,
        tb255, tb2047, tb65535, tbFalse8 h2, tbFalse8 h3, tbFalse8 h4]
  · have hn : ¬ i < 8 := by omega
    simp [Nat.testBit_and, tb255, hn, tbFalse8 h3 hi]

theorem rc_pb_b4 (d2 d3 d4 d5 : Nat) (h2 : d2 < 256) (h3 : d3 < 256) (h4 : d4 < 256) (h5 : d5 < 256) :
    ((((2047 &&& ((d2 >>> 6) ||| ((d3 <<< 2) &&& 65535) ||| ((d4 <<< 10) &&& 65535))) >>> 10) ||| (((2047 &&& ((d4 >>> 1) ||| ((d5 <<< 7) &&& 65535))) <<< 1) &&& 65535)) &&& 255) = d4 := by
  apply Nat.eq_of_testBit_eq
  intro i
  rcases Nat.lt_or_ge i 8 with hi | hi
  · interval_cases i <;>
      simp [Nat.testBit_lor, Nat.testBit_and, Nat.testBit_shiftLeft, Nat.testBit_shiftRight,
        tb255, tb2047, tb65535, tbFalse8 h2, tbFalse8 h3, tbFalse8 h4, tbFalse8 h5]
  · have hn : ¬ i < 8 := by omega
    simp [Nat.testBit_and, tb255, hn, tbFalse8 h4 hi]

theorem rc_pb_b5 (d4 d5 d6 : Nat) (h4 : d4 < 256) (h5 : d5 < 256) (h6 : d6 < 256) :
    ((((2047 &&& ((d4 >>> 1) ||| ((d5 <<< 7) &&& 65535))) >>> 7) ||| (((2047 &&& ((d5 >>> 4) ||| ((d6 <<< 4) &&& 65535))) <<< 4) &&& 65535)) &&& 255) = d5 := by
  apply Nat.eq_of_testBit_eq
  intro i
  rcases Nat.lt_or_ge i 8 with hi | hi
  · interval_cases i <;>
      simp [Nat.testBit_lor, Nat.testBit_and, Nat.testBit_shiftLeft, Nat.testBit_shiftRight,
        tb255, tb2047, tb65535, tbFalse8 h4, tbFalse8 h5, tbFalse8 h6]
  · have hn : ¬ i < 8 := by omega
    simp [Nat.testBit_and, tb255, hn, tbFalse8 h5 hi]

theorem rc_pb_b6 (d5 d6 d7 d8 : Nat) (h5 : d5 < 256) (h6 : d6 < 256) (h7 : d7 < 256) (h8 : d8 < 256) :
    ((((2047 &&& ((d5 >>> 4) ||| ((d6 <<< 4) &&& 65535))) >>> 4) ||| (((2047 &&& ((d6 >>> 7) ||| ((d7 <<< 1) &&& 65535) ||| ((d8 <<< 9) &&& 65535))) <<< 7) &&& 65535)) &&& 255) = d6 := by
  apply Nat.eq_of_testBit_eq
  intro i
  rcases Nat.lt_or_ge i 8 with hi | hi
  · interval_cases i <;>
      simp [Nat.testBit_lor, Nat.testBit_and, Nat.testBit_shiftLeft, Nat.testBit_shiftRight,
        tb255, tb2047, tb65535, tbFalse8 h5, tbFalse8 h6, tbFalse8 h7, tbFalse8 h8]
  · have hn : ¬ i < 8 := by omega
    simp [Nat.testBit_and, tb255, hn, tbFalse8 h6 hi]

theorem rc_pb_b7 (d6 d7 d8 : Nat) (h6 : d6 < 256) (h7 : d7 < 256) (h8 : d8 < 256) :
    (((2047 &&& ((d6 >>> 7) ||| ((d7 <<< 1) &&& 65535) ||| ((d8 <<< 9) &&& 65535))) >>> 1) &&& 255) = d7 := by
  apply Nat.eq_of_testBit_eq
  intro i
  rcases Nat.lt_or_ge i 8 with hi | hi
  · interval_cases i <;>
      simp [Nat.testBit_lor, Nat.testBit_and, Nat.testBit_shiftLeft, Nat.testBit_shiftRight,
        tb255, tb2047, tb65535, tbFalse8 h6, tbFalse8 h7, tbFalse8 h8]
  · have hn : ¬ i < 8 := by omega
    simp [Nat.testBit_and, tb255, hn, tbFalse8 h7 hi]

theorem rc_pb_b8 (d6 d7 d8 d9 : Nat) (h6 : d6 < 256) (h7 : d7 < 256) (h8 : d8 < 256) (h9 : d9 < 256) :
    ((((2047 &&& ((d6 >>> 7) ||| ((d7 <<< 1) &&& 65535) ||| ((d8 <<< 9) &&& 65535))) >>> 9) ||| (((2047 &&& ((d8 >>> 2) ||| ((d9 <<< 6) &&& 65535))) <<< 2) &&& 65535)) &&& 255) = d8 := by
  apply Nat.eq_of_testBit_eq
  intro i
  rcases Nat.lt_or_ge i 8 with hi | hi
  · interval_cases i <;>
      simp [Nat.testBit_lor, Nat.testBit_and, Nat.testBit_shiftLeft, Nat.testBit_shiftRight,
        tb255, tb2047, tb65535, tbFalse8 h6, tbFalse8 h7, tbFalse8 h8, tbFalse8 h9]
  · have hn : ¬ i < 8 := by omega
    simp [Nat.testBit_and, tb255, hn, tbFalse8 h8 hi]

theorem rc_pb_b9 (d8 d9 d10 : Nat) (h8 : d8 < 256) (h9 : d9 < 256) (h10 : d10 < 256) :
    ((((2047 &&& ((d8 >>> 2) ||| ((d9 <<< 6) &&& 65535))) >>> 6) ||| (((2047 &&& ((d9 >>> 5) ||| ((d10 <<< 3) &&& 65535))) <<< 5) &&& 65535)) &&& 255) = d9 := by
  apply Nat.eq_of_testBit_eq
  intro i
  rcases Nat.lt_or_ge i 8 with hi | hi
  · interval_cases i <;>
      simp [Nat.testBit_lor, Nat.testBit_and, Nat.testBit_shiftLeft, Nat.testBit_shiftRight,
        tb255, tb2047, tb65535, tbFalse8 h8, tbFalse8 h9, tbFalse8 h10]
  · have hn : ¬ i < 8 := by omega
    simp [Nat.testBit_and, tb255, hn, tbFalse8 h9 hi]

theorem rc_pb_b10 (d9 d10 : Nat) (h9 : d9 < 256) (h10 : d10 < 256) :
    (((2047 &&& ((d9 >>> 5) ||| ((d10 <<< 3) &&& 65535))) >>> 3) &&& 255) = d10 := by
  apply Nat.eq_of_testBit_eq
  intro i
  rcases Nat.lt_or_ge i 8 with hi | hi
  · interval_cases i <;>
      simp [Nat.testBit_lor, Nat.testBit_and, Nat.testBit_shiftLeft, Nat.testBit_shiftRight,
        tb255, tb2047, tb65535, tbFalse8 h9, tbFalse8 h10]
  · have hn : ¬ i < 8 := by omega
    simp [Nat.testBit_and, tb255, hn, tbFalse8 h10 hi]

theorem rc_pb_b11 (d11 d12 : Nat) (h11 : d11 < 256) (h12 : d12 < 256) :
    ((2047 &&& (d11 ||| ((d12 <<< 8) &&& 65535))) &&& 255) = d11 := by
  apply Nat.eq_of_testBit_eq
  intro i
  rcases Nat.lt_or_ge i 8 with hi | hi
  · interval_cases i <;>
      simp [Nat.testBit_lor, Nat.testBit_and, Nat.testBit_shiftLeft, Nat.testBit_shiftRight,
        tb255, tb2047, tb65535, tbFalse8 h11, tbFalse8 h12]
  · have hn : ¬ i < 8 := by omega
    simp [Nat.testBit_and, tb255, hn, tbFalse8 h11 hi]

theorem rc_pb_b12 (d11 d12 d13 : Nat) (h11 : d11 < 256) (h12 : d12 < 256) (h13 : d13 < 256) :
    ((((2047 &&& (d11 ||| ((d12 <<< 8) &&& 65535))) >>> 8) ||| (((2047 &&& ((d12 >>> 3) ||| ((d13 <<< 5) &&& 65535))) <<< 3) &&& 65535)) &&& 255) = d12 := by
  apply Nat.eq_of_testBit_eq
  intro i
  rcases Nat.lt_or_ge i 8 with hi | hi
  · interval_cases i <;>
      simp [Nat.testBit_lor, Nat.testBit_and, Nat.testBit_shiftLeft, Nat.testBit_shiftRight,
        tb255, tb2047, tb65535, tbFalse8 h11, tbFalse8 h12, tbFalse8 h13]
  · have hn : ¬ i < 8 := by omega
    simp [Nat.testBit_and, tb255, hn, tbFalse8 h12 hi]

theorem rc_pb_b13 (d12 d13 d14 d15 : Nat) (h12 : d12 < 256) (h13 : d13 < 256) (h14 : d14 < 256) (h15 : d15 < 256) :
    ((((2047 &&& ((d12 >>> 3) ||| ((d13 <<< 5) &&& 65535))) >>> 5) ||| (((2047 &&& ((d13 >>> 6) ||| ((d14 <<< 2) &&& 65535) ||| ((d15 <<< 10) &&& 65535))) <<< 6) &&& 65535)) &&& 255) = d13 := by
  apply Nat.eq_of_testBit_eq
  intro i
  rcases Nat.lt_or_ge i 8 with hi | hi
  · interval_cases i <;>
      simp [Nat.testBit_lor, Nat.testBit_and, Nat.testBit_shiftLeft, Nat.testBit_shiftRight,
        tb255, tb2047, tb65535, tbFalse8 h12, tbFalse8 h13, tbFalse8 h14, tbFalse8 h15]
  · have hn : ¬ i < 8 := by omega
    simp [Nat.testBit_and, tb255, hn, tbFalse8 h13 hi]

theorem rc_pb_b14 (d13 d14 d15 : Nat) (h13 : d13 < 256) (h14 : d14 < 256) (h15 : d15 < 256) :
    (((2047 &&& ((d13 >>> 6) ||| ((d14 <<< 2) &&& 65535) ||| ((d15 <<< 10) &&& 65535))) >>> 2) &&& 255) = d14 := by
  apply Nat.eq_of_testBit_eq
  intro i
  rcases Nat.lt_or_ge i 8 with hi | hi
  · interval_cases i <;>
      simp [Nat.testBit_lor, Nat.testBit_and, Nat.testBit_shiftLeft, Nat.testBit_shiftRight,
        tb255, tb2047, tb65535, tbFalse8 h13, tbFalse8 h14, tbFalse8 h15]
  · have hn : ¬ i < 8 := by omega
    simp [Nat.testBit_and, tb255, hn, tbFalse8 h14 hi]

theorem rc_pb_b15 (d13 d14 d15 d16 : Nat) (h13 : d13 < 256) (h14 : d14 < 256) (h15 : d15 < 256) (h16 : d16 < 256) :
    ((((2047 &&& ((d13 >>> 6) ||| ((d14 <<< 2) &&& 65535) ||| ((d15 <<< 10) &&& 65535))) >>> 10) ||| (((2047 &&& ((d15 >>> 1) ||| ((d16 <<< 7) &&& 65535))) <<< 1) &&& 65535)) &&& 255) = d15 := by
  apply Nat.eq_of_testBit_eq
  intro i
  rcases Nat.lt_or_ge i 8 with hi | hi
  · interval_cases i <;>
      simp [Nat.testBit_lor, Nat.testBit_and, Nat.testBit_shiftLeft, Nat.testBit_shiftRight,
        tb255, tb2047, tb65535, tbFalse8 h13, tbFalse8 h14, tbFalse8 h15, tbFalse8 h16]
  · have hn : ¬ i < 8 := by omega
    simp [Nat.testBit_and, tb255, hn, tbFalse8 h15 hi]

theorem rc_pb_b16 (d15 d16 d17 : Nat) (h15 : d15 < 256) (h16 : d16 < 256) (h17 : d17 < 256) :
    ((((2047 &&& ((d15 >>> 1) ||| ((d16 <<< 7) &&& 65535))) >>> 7) ||| (((2047 &&& ((d16 >>> 4) ||| ((d17 <<< 4) &&& 65535))) <<< 4) &&& 65535)) &&& 255) = d16 := by
  apply Nat.eq_of_testBit_eq
  intro i
  rcases Nat.lt_or_ge i 8 with hi | hi
  · interval_cases i <;>
      simp [Nat.testBit_lor, Nat.testBit_and, Nat.testBit_shiftLeft, Nat.testBit_shiftRight,
        tb255, tb2047, tb65535, tbFalse8 h15, tbFalse8 h16, tbFalse8 h17]
  · have hn : ¬ i < 8 := by omega
    simp [Nat.testBit_and, tb255, hn, tbFalse8 h16 hi]

theorem rc_pb_b17 (d16 d17 d18 d19 : Nat) (h16 : d16 < 256) (h17 : d17 < 256) (h18 : d18 < 256) (h19 : d19 < 256) :
    ((((2047 &&& ((d16 >>> 4) ||| ((d17 <<< 4) &&& 65535))) >>> 4) ||| (((2047 &&& ((d17 >>> 7) ||| ((d18 <<< 1) &&& 65535) ||| ((d19 <<< 9) &&& 65535))) <<< 7) &&& 65535)) &&& 255) = d17 := by
  apply Nat.eq_of_testBit_eq
  intro i
  rcases Nat.lt_or_ge i 8 with hi | hi
  · interval_cases i <;>
      simp [Nat.testBit_lor, Nat.testBit_and, Nat.testBit_shiftLeft, Nat.testBit_shiftRight,
        tb255, tb2047, tb65535, tbFalse8 h16, tbFalse8 h17, tbFalse8 h18, tbFalse8 h19]
  · have hn : ¬ i < 8 := by omega
    simp [Nat.testBit_and, tb255, hn, tbFalse8 h17 hi]

theorem rc_pb_b18 (d17 d18 d19 : Nat) (h17 : d17 < 256) (h18 : d18 < 256) (h19 : d19 < 256) :
    (((2047 &&& ((d17 >>> 7) ||| ((d18 <<< 1) &&& 65535) ||| ((d19 <<< 9) &&& 65535))) >>> 1) &&& 255) = d18 := by
  apply Nat.eq_of_testBit_eq
  intro i
  rcases Nat.lt_or_ge i 8 with hi | hi
  · interval_cases i <;>
      simp [Nat.testBit_lor, Nat.testBit_and, Nat.testBit_shiftLeft, Nat.testBit_shiftRight,
        tb255, tb2047, tb65535, tbFalse8 h17, tbFalse8 h18, tbFalse8 h19]
  · have hn : ¬ i < 8 := by omega
    simp [Nat.testBit_and, tb255, hn, tbFalse8 h18 hi]

theorem rc_pb_b19 (d17 d18 d19 d20 : Nat) (h17 : d17 < 256) (h18 : d18 < 256) (h19 : d19 < 256) (h20 : d20 < 256) :
    ((((2047 &&& ((d17 >>> 7) ||| ((d18 <<< 1) &&& 65535) ||| ((d19 <<< 9) &&& 65535))) >>> 9) ||| (((2047 &&& ((d19 >>> 2) ||| ((d20 <<< 6) &&& 65535))) <<< 2) &&& 65535)) &&& 255) = d19 := by
  apply Nat.eq_of_testBit_eq
  intro i
  rcases Nat.lt_or_ge i 8 with hi | hi
  · interval_cases i <;>
      simp [Nat.testBit_lor, Nat.testBit_and, Nat.testBit_shiftLeft, Nat.testBit_shiftRight,
        tb255, tb2047, tb65535, tbFalse8 h17, tbFalse8 h18, tbFalse8 h19, tbFalse8 h20]
  · have hn : ¬ i < 8 := by omega
    simp [Nat.testBit_and, tb255, hn, tbFalse8 h19 hi]

theorem rc_pb_b20 (d19 d20 d21 : Nat) (h19 : d19 < 256) (h20 : d20 < 256) (h21 : d21 < 256) :
    ((((2047 &&& ((d19 >>> 2) ||| ((d20 <<< 6) &&& 65535))) >>> 6) ||| (((2047 &&& ((d20 >>> 5) ||| ((d21 <<< 3) &&& 65535))) <<< 5) &&& 65535)) &&& 255) = d20 := by
  apply Nat.eq_of_testBit_eq
  intro i
  rcases Nat.lt_or_ge i 8 with hi | hi
  · interval_cases i <;>
      simp [Nat.testBit_lor, Nat.testBit_and, Nat.testBit_shiftLeft, Nat.testBit_shiftRight,
        tb255, tb2047, tb65535, tbFalse8 h19, tbFalse8 h20, tbFalse8 h21]
  · have hn : ¬ i < 8 := by omega
    simp [Nat.testBit_and, tb255, hn, tbFalse8 h20 hi]

theorem rc_pb_b21 (d20 d21 : Nat) (h20 : d20 < 256) (h21 : d21 < 256) :
    (((2047 &&& ((d20 >>> 5) ||| ((d21 <<< 3) &&& 65535))) >>> 3) &&& 255) = d21 := by
  apply Nat.eq_of_testBit_eq
  intro i
  rcases Nat.lt_or_ge i 8 with hi | hi
  · interval_cases i <;>
      simp [Nat.testBit_lor, Nat.testBit_and, Nat.testBit_shiftLeft, Nat.testBit_shiftRight,
        tb255, tb2047, tb65535, tbFalse8 h20, tbFalse8 h21]
  · have hn : ¬ i < 8 := by omega
    simp [Nat.testBit_and, tb255, hn, tbFalse8 h21 hi]


/-- C4: bit-packed channel round trip.  For every channel array with all 16
values in `[0, 2047]`, `to_bytes` into any 22-byte buffer succeeds returning
exactly 22 bytes (`MIN_PAYLOAD_SIZE`) written, and `from_bytes` applied to the
written 22-byte payload returns the original value. -/
theorem rc_channels_round_trip (p : RcChannelsPacked) (buffer : List Nat)
    (hbuf : buffer.length = 22)
    (h0 : p.ch0 ≤ 2047) (h1 : p.ch1 ≤ 2047) (h2 : p.ch2 ≤ 2047) (h3 : p.ch3 ≤ 2047) (h4 : p.ch4 ≤ 2047) (h5 : p.ch5 ≤ 2047) (h6 : p.ch6 ≤ 2047) (h7 : p.ch7 ≤ 2047) (h8 : p.ch8 ≤ 2047) (h9 : p.ch9 ≤ 2047) (h10 : p.ch10 ≤ 2047) (h11 : p.ch11 ≤ 2047) (h12 : p.ch12 ≤ 2047) (h13 : p.ch13 ≤ 2047) (h14 : p.ch14 ≤ 2047) (h15 : p.ch15 ≤ 2047) :
    ∃ out, p.to_bytes buffer = .ok (22, out) ∧
      RcChannelsPacked.from_bytes out = .ok p := by
  refine ⟨_, rc_to_bytes_ok p buffer hbuf, ?_⟩
  obtain ⟨c0, c1, c2, c3, c4, c5, c6, c7, c8, c9, c10, c11, c12, c13, c14, c15⟩ := p
  simp only at h0 h1 h2 h3 h4 h5 h6 h7 h8 h9 h10 h11 h12 h13 h14 h15
  rw [RcChannelsPacked.from_bytes,
    if_neg (by simp [packedBytes_length, RcChannelsPacked.MIN_PAYLOAD_SIZE])]
  rw [Except.ok.injEq]
  simp only [RcChannelsPacked.mk.injEq]
  refine ⟨?_, ?_, ?_, ?_, ?_, ?_, ?_, ?_, ?_, ?_, ?_, ?_, ?_, ?_, ?_, ?_⟩
  · exact rc_rt_ch0 c0 c1 (by omega) (by omega)
  · exact rc_rt_ch1 c0 c1 c2 (by omega) (by omega) (by omega)
  · exact rc_rt_ch2 c1 c2 c3 (by omega) (by omega) (by omega)
  · exact rc_rt_ch3 c2 c3 c4 (by omega) (by omega) (by omega)
  · exact rc_rt_ch4 c3 c4 c5 (by omega) (by omega) (by omega)
  · exact rc_rt_ch5 c4 c5 c6 (by omega) (by omega) (by omega)
  · exact rc_rt_ch6 c5 c6 c7 (by omega) (by omega) (by omega)
  · exact rc_rt_ch7 c6 c7 (by omega) (by omega)
  · exact rc_rt_ch8 c8 c9 (by omega) (by omega)
  · exact rc_rt_ch9 c8 c9 c10 (by omega) (by omega) (by omega)
  · exact rc_rt_ch10 c9 c10 c11 (by omega) (by omega) (by omega)
  · exact rc_rt_ch11 c10 c11 c12 (by omega) (by omega) (by omega)
  · exact rc_rt_ch12 c11 c12 c13 (by omega) (by omega) (by omega)
  · exact rc_rt_ch13 c12 c13 c14 (by omega) (by omega) (by omega)
  · exact rc_rt_ch14 c13 c14 c15 (by omega) (by omega) (by omega)
  · exact rc_rt_ch15 c14 c15 (by omega) (by omega)

/-- Witness for the channel round-trip theorem at a concrete channel array. -/
theorem rc_channels_round_trip_witness :
    ∃ out,
      RcChannelsPacked.to_bytes
        ⟨1000, 1001, 1002, 1003, 1500, 1501, 1502, 1503, 2000, 2001, 2002, 2003,
         992, 100, 500, 1900⟩ (List.replicate 22 0) = .ok (22, out) ∧
      RcChannelsPacked.from_bytes out =
        .ok ⟨1000, 1001, 1002, 1003, 1500, 1501, 1502, 1503, 2000, 2001, 2002, 2003,
          992, 100, 500, 1900⟩ :=
  rc_channels_round_trip _ _ (by decide) (by decide) (by decide) (by decide) (by decide)
    (by decide) (by decide) (by decide) (by decide) (by decide) (by decide) (by decide)
    (by decide) (by decide) (by decide) (by decide) (by decide)

/-- C10: the channel codec is inverse in the byte direction.  For every
22-byte payload (arbitrary byte values), `from_bytes` succeeds, every decoded
channel is at most 2047, and `to_bytes` on the decoded value reproduces
exactly the original 22 bytes. -/
theorem rc_from_bytes_to_bytes_inverse (d : List Nat)
    (hlen : d.length = 22) (hb : ∀ b ∈ d, b < 256) :
    ∃ p : RcChannelsPacked, RcChannelsPacked.from_bytes d = .ok p ∧
      (p.ch0 ≤ 2047 ∧ p.ch1 ≤ 2047 ∧ p.ch2 ≤ 2047 ∧ p.ch3 ≤ 2047 ∧
       p.ch4 ≤ 2047 ∧ p.ch5 ≤ 2047 ∧ p.ch6 ≤ 2047 ∧ p.ch7 ≤ 2047 ∧
       p.ch8 ≤ 2047 ∧ p.ch9 ≤ 2047 ∧ p.ch10 ≤ 2047 ∧ p.ch11 ≤ 2047 ∧
       p.ch12 ≤ 2047 ∧ p.ch13 ≤ 2047 ∧ p.ch14 ≤ 2047 ∧ p.ch15 ≤ 2047) ∧
      p.to_bytes (List.replicate 22 0) = .ok (22, d) := by
  rcases d with _ | ⟨d0, d⟩
  · simp at hlen
  rcases d with _ | ⟨d1, d⟩
  · simp at hlen
  rcases d with _ | ⟨d2, d⟩
  · simp at hlen
  rcases d with _ | ⟨d3, d⟩
  · simp at hlen
  rcases d with _ | ⟨d4, d⟩
  · simp at hlen
  rcases d with _ | ⟨d5, d⟩
  · simp at hlen
  rcases d with _ | ⟨d6, d⟩
  · simp at hlen
  rcases d with _ | ⟨d7, d⟩
  · simp at hlen
  rcases d with _ | ⟨d8, d⟩
  · simp at hlen
  rcases d with _ | ⟨d9, d⟩
  · simp at hlen
  rcases d with _ | ⟨d10, d⟩
  · simp at hlen
  rcases d with _ | ⟨d11, d⟩
  · simp at hlen
  rcases d with _ | ⟨d12, d⟩
  · simp at hlen
  rcases d with _ | ⟨d13, d⟩
  · simp at hlen
  rcases d with _ | ⟨d14, d⟩
  · simp at hlen
  rcases d with _ | ⟨d15, d⟩
  · simp at hlen
  rcases d with _ | ⟨d16, d⟩
  · simp at hlen
  rcases d with _ | ⟨d17, d⟩
  · simp at hlen
  rcases d with _ | ⟨d18, d⟩
  · simp at hlen
  rcases d with _ | ⟨d19, d⟩
  · simp at hlen
  rcases d with _ | ⟨d20, d⟩
  · simp at hlen
  rcases d with _ | ⟨d21, d⟩
  · simp at hlen
  have hnil : d = [] := by simpa using hlen
  subst hnil
  have hb0 : d0 < 256 := hb d0 (by simp)
  have hb1 : d1 < 256 := hb d1 (by simp)
  have hb2 : d2 < 256 := hb d2 (by simp)
  have hb3 : d3 < 256 := hb d3 (by simp)
  have hb4 : d4 < 256 := hb d4 (by simp)
  have hb5 : d5 < 256 := hb d5 (by simp)
  have hb6 : d6 < 256 := hb d6 (by simp)
  have hb7 : d7 < 256 := hb d7 (by simp)
  have hb8 : d8 < 256 := hb d8 (by simp)
  have hb9 : d9 < 256 := hb d9 (by simp)
  have hb10 : d10 < 256 := hb d10 (by simp)
  have hb11 : d11 < 256 := hb d11 (by simp)
  have hb12 : d12 < 256 := hb d12 (by simp)
  have hb13 : d13 < 256 := hb d13 (by simp)
  have hb14 : d14 < 256 := hb d14 (by simp)
  have hb15 : d15 < 256 := hb d15 (by simp)
  have hb16 : d16 < 256 := hb d16 (by simp)
  have hb17 : d17 < 256 := hb d17 (by simp)
  have hb18 : d18 < 256 := hb d18 (by simp)
  have hb19 : d19 < 256 := hb d19 (by simp)
  have hb20 : d20 < 256 := hb d20 (by simp)
  have hb21 : d21 < 256 := hb d21 (by simp)
  rw [RcChannelsPacked.from_bytes, if_neg (by simp [RcChannelsPacked.MIN_PAYLOAD_SIZE])]
  refine ⟨_, rfl, ?_, ?_⟩
  · refine ⟨?_, ?_, ?_, ?_, ?_, ?_, ?_, ?_, ?_, ?_, ?_, ?_, ?_, ?_, ?_, ?_⟩ <;>
      exact Nat.and_le_left
  · rw [rc_to_bytes_ok _ _ (by simp), Except.ok.injEq, Prod.mk.injEq]
    refine ⟨rfl, ?_⟩
    simp only [RcChannelsPacked.packedBytes, List.cons.injEq, and_true]
    refine ⟨?_, ?_, ?_, ?_, ?_, ?_, ?_, ?_, ?_, ?_, ?_, ?_, ?_, ?_, ?_, ?_, ?_, ?_, ?_, ?_, ?_, ?_⟩
    · exact rc_pb_b0 d0 d1 hb0 hb1
    · exact rc_pb_b1 d0 d1 d2 hb0 hb1 hb2
    · exact rc_pb_b2 d1 d2 d3 d4 hb1 hb2 hb3 hb4
    · exact rc_pb_b3 d2 d3 d4 hb2 hb3 hb4
    · exact rc_pb_b4 d2 d3 d4 d5 hb2 hb3 hb4 hb5
    · exact rc_pb_b5 d4 d5 d6 hb4 hb5 hb6
    · exact rc_pb_b6 d5 d6 d7 d8 hb5 hb6 hb7 hb8
    · exact rc_pb_b7 d6 d7 d8 hb6 hb7 hb8
    · exact rc_pb_b8 d6 d7 d8 d9 hb6 hb7 hb8 hb9
    · exact rc_pb_b9 d8 d9 d10 hb8 hb9 hb10
    · exact rc_pb_b10 d9 d10 hb9 hb10
    · exact rc_pb_b11 d11 d12 hb11 hb12
    · exact rc_pb_b12 d11 d12 d13 hb11 hb12 hb13
    · exact rc_pb_b13 d12 d13 d14 d15 hb12 hb13 hb14 hb15
    · exact rc_pb_b14 d13 d14 d15 hb13 hb14 hb15
    · exact rc_pb_b15 d13 d14 d15 d16 hb13 hb14 hb15 hb16
    · exact rc_pb_b16 d15 d16 d17 hb15 hb16 hb17
    · exact rc_pb_b17 d16 d17 d18 d19 hb16 hb17 hb18 hb19
    · exact rc_pb_b18 d17 d18 d19 hb17 hb18 hb19
    · exact rc_pb_b19 d17 d18 d19 d20 hb17 hb18 hb19 hb20
    · exact rc_pb_b20 d19 d20 d21 hb19 hb20 hb21
    · exact rc_pb_b21 d20 d21 hb20 hb21

/-- Witness for the byte-direction inverse at a concrete payload. -/
theorem rc_from_bytes_to_bytes_inverse_witness :
    ∃ p : RcChannelsPacked,
      RcChannelsPacked.from_bytes
        [0x03, 0x1F, 0x58, 0xC0, 0x07, 0x16, 0xB0, 0x80, 0x05, 0x2C, 0x60,
         0x01, 0x0B, 0xF8, 0xC0, 0x07, 0x00, 0x00, 0x00, 0x00, 0x00, 252] = .ok p ∧
      (p.ch0 ≤ 2047 ∧ p.ch1 ≤ 2047 ∧ p.ch2 ≤ 2047 ∧ p.ch3 ≤ 2047 ∧
       p.ch4 ≤ 2047 ∧ p.ch5 ≤ 2047 ∧ p.ch6 ≤ 2047 ∧ p.ch7 ≤ 2047 ∧
       p.ch8 ≤ 2047 ∧ p.ch9 ≤ 2047 ∧ p.ch10 ≤ 2047 ∧ p.ch11 ≤ 2047 ∧
       p.ch12 ≤ 2047 ∧ p.ch13 ≤ 2047 ∧ p.ch14 ≤ 2047 ∧ p.ch15 ≤ 2047) ∧
      p.to_bytes (List.replicate 22 0) =
        .ok (22,
          [0x03, 0x1F, 0x58, 0xC0, 0x07, 0x16, 0xB0, 0x80, 0x05, 0x2C, 0x60,
           0x01, 0x0B, 0xF8, 0xC0, 0x07, 0x00, 0x00, 0x00, 0x00, 0x00, 252]) :=
  rc_from_bytes_to_bytes_inverse _ (by decide) (by decide)


/-- C5: altitude packing edge values and clamps.
`get_altitude_packed(-10000) = 0`, `get_altitude_packed(22766) = 32766`,
`get_altitude_packed(22767) = 0x7FFF`; every altitude below `-10000` dm packs
to `0`, and every altitude above the maximum representable altitude
(`ALT_MAX_DM = 0x7ffe * 10 - 5` dm) packs to `0xFFFE`. -/
theorem altitude_packed_edge_values_and_clamps :
    BaroAltitude.get_altitude_packed (-10000) = 0 ∧
    BaroAltitude.get_altitude_packed 22766 = 32766 ∧
    BaroAltitude.get_altitude_packed 22767 = 0x7FFF ∧
    (∀ a : Int, a < -10000 → BaroAltitude.get_altitude_packed a = 0) ∧
    (∀ a : Int, a > ALT_MAX_DM → BaroAltitude.get_altitude_packed a = 0xFFFE) := by
  refine ⟨by decide, by decide, by decide, ?_, ?_⟩
  · intro a ha
    simp only [BaroAltitude.get_altitude_packed, ALT_MIN_DM]
    rw [if_pos (by omega)]
  · intro a ha
    simp only [BaroAltitude.get_altitude_packed, ALT_MIN_DM, ALT_MAX_DM] at *
    rw [if_neg (by omega), if_pos (by omega)]

/-- Witness for the clamp clauses of the altitude packing theorem. -/
theorem altitude_packed_edge_values_and_clamps_witness :
    BaroAltitude.get_altitude_packed (-10001) = 0 ∧
    BaroAltitude.get_altitude_packed 327660 = 0xFFFE :=
  ⟨altitude_packed_edge_values_and_clamps.2.2.2.1 (-10001) (by decide),
   altitude_packed_edge_values_and_clamps.2.2.2.2 327660 (by decide)⟩

/-! ### Parser run lemmas -/

theorem setConsec_length : ∀ (xs buf : List Nat) (i : Nat),
    (setConsec buf i xs).length = buf.length
  | [], _, _ => rfl
  | x :: xs, buf, i => by
    rw [setConsec, setConsec_length xs]
    simp

theorem runRaw_append (p : CrsfParser) (xs ys : List Nat) :
    runRaw p (xs ++ ys) =
      ((runRaw (runRaw p xs).1 ys).1, (runRaw p xs).2 ++ (runRaw (runRaw p xs).1 ys).2) := by
  induction xs generalizing p with
  | nil => simp [runRaw]
  | cons x xs ih => simp [runRaw, ih]

theorem runRaw_cons (p : CrsfParser) (b : Nat) (bs : List Nat) :
    runRaw p (b :: bs) =
      ((runRaw (p.push_byte_raw b).1 bs).1,
        (p.push_byte_raw b).2 :: (runRaw (p.push_byte_raw b).1 bs).2) := rfl

theorem runRaw_reading : ∀ (ms : List Nat) (p : CrsfParser) (n : Nat),
    p.state = .Reading n → p.position + ms.length + 1 = n → ms ≠ [] →
    runRaw p ms =
      (⟨setConsec p.buffer (p.position + 1) ms, .AwaitingCrc, n - 1⟩,
        List.replicate ms.length .Incomplete)
  | [], _, _, _, _, hms => absurd rfl hms
  | [x], p, n, hstate, hlen, _ => by
    have hpos : p.position + 1 = n - 1 := by simp at hlen; omega
    simp [runRaw, CrsfParser.push_byte_raw, hstate, hpos, setConsec]
  | x :: y :: ms, p, n, hstate, hlen, _ => by
    have hne : ¬ (p.position + 1 = n - 1) := by simp at hlen; omega
    have ih := runRaw_reading (y :: ms)
      ⟨p.buffer.set (p.position + 1) x, .Reading n, p.position + 1⟩ n rfl
      (by simp at hlen ⊢; omega) (by simp)
    have hp : p.push_byte_raw x =
        (⟨p.buffer.set (p.position + 1) x, .Reading n, p.position + 1⟩, .Incomplete) := by
      simp [CrsfParser.push_byte_raw, hstate, hne]
    rw [runRaw_cons, hp]
    rw [ih]
    simp [setConsec, List.replicate_succ]

theorem runRaw_wellFormedFrame (p : CrsfParser) (f : List Nat)
    (hstate : p.state = .AwaitingSync) (hbuf : p.buffer.length = 64)
    (hwf : WellFormedFrame f) :
    (runRaw p f).2 = List.replicate (f.length - 1) .Incomplete ++ [.Complete ⟨f⟩] ∧
    (runRaw p f).1.state = .AwaitingSync ∧
    (runRaw p f).1.position = 0 ∧
    (runRaw p f).1.buffer.length = 64 := by
  obtain ⟨hlen4, hlen64, haddr, hlenbyte, hcrc⟩ := hwf
  -- decompose the frame
  rcases f with _ | ⟨a, f⟩
  · simp at hlen4
  rcases f with _ | ⟨l, f⟩
  · simp at hlen4
  rcases (List.eq_nil_or_concat f) with hnil | ⟨mid, c, hconcat⟩
  · subst hnil; simp at hlen4
  subst hconcat
  simp only [List.concat_eq_append] at hlen4 hlen64 haddr hlenbyte hcrc ⊢
  have hmidne : mid ≠ [] := by
    intro h
    subst h
    simp at hlen4
  have hmidlen : 1 ≤ mid.length := by
    cases mid with
    | nil => exact absurd rfl hmidne
    | cons _ _ => simp
  have hflen : (a :: l :: (mid ++ [c])).length = mid.length + 3 := by simp
  simp only [hflen] at hlen64 hlenbyte hcrc
  have hl : l = mid.length + 1 := by simpa using hlenbyte
  subst hl
  simp only [List.getD_cons_zero] at haddr
  have hcrc' : c = crc8 mid := by
    have h := hcrc
    simp [List.getD_eq_getElem?_getD] at h
    exact h
  clear hcrc hlenbyte hlen4 hflen
  have haddr2 : PacketAddress.tryFromPrimitive a ≠ none := by
    simpa [isValidAddressByte, Option.isSome_iff_ne_none] using haddr
  -- push the address byte
  have hp1 : p.push_byte_raw a = (⟨p.buffer.set 0 a, .AwaitingLenth, 0⟩, .Incomplete) := by
    simp [CrsfParser.push_byte_raw, hstate, haddr2]
  -- push the length byte
  have harith : mid.length + 1 + 2 - 1 = mid.length + 2 := by omega
  have hp2 : (⟨p.buffer.set 0 a, .AwaitingLenth, 0⟩ : CrsfParser).push_byte_raw
      (mid.length + 1) =
      (⟨(p.buffer.set 0 a).set 1 (mid.length + 1), .Reading (mid.length + 2), 1⟩,
        .Incomplete) := by
    simp only [CrsfParser.push_byte_raw]
    rw [if_neg]
    · rw [harith]
    · simp only [CRSF_MIN_PACKET_SIZE, CRSF_MAX_PACKET_SIZE, not_not]
      omega
  -- read the middle bytes
  have hrd : runRaw
      ⟨(p.buffer.set 0 a).set 1 (mid.length + 1), .Reading (mid.length + 2), 1⟩ mid =
      (⟨setConsec ((p.buffer.set 0 a).set 1 (mid.length + 1)) 2 mid,
          .AwaitingCrc, mid.length + 1⟩,
        List.replicate mid.length .Incomplete) :=
    runRaw_reading mid
      ⟨(p.buffer.set 0 a).set 1 (mid.length + 1), .Reading (mid.length + 2), 1⟩
      (mid.length + 2) rfl (by simp only; omega) hmidne
  -- the buffer after the middle bytes
  have hbuf2 : ((p.buffer.set 0 a).set 1 (mid.length + 1)).length = 64 := by simp [hbuf]
  have htk2 : ((p.buffer.set 0 a).set 1 (mid.length + 1)).take 2 =
      [a, mid.length + 1] := by
    rw [take_set_succ _ _ _ (by simp [hbuf])]
    rw [take_set_succ _ _ _ (by simp [hbuf])]
    simp
  have hB : setConsec ((p.buffer.set 0 a).set 1 (mid.length + 1)) 2 mid =
      (a :: (mid.length + 1) :: mid) ++
        ((p.buffer.set 0 a).set 1 (mid.length + 1)).drop (2 + mid.length) := by
    rw [setConsec_eq_append _ _ _ (by rw [hbuf2]; omega)]
    rw [htk2]
    simp
  -- decompose the bytes after position 2 + mid.length
  have hjunkpos : 0 < (((p.buffer.set 0 a).set 1 (mid.length + 1)).drop (2 + mid.length)).length := by
    rw [List.length_drop, hbuf2]
    omega
  obtain ⟨j0, junk2, hjunk⟩ :=
    List.exists_cons_of_ne_nil (List.length_pos.mp hjunkpos)
  rw [hjunk] at hB
  -- the final CRC byte
  have hset4 : ((a :: (mid.length + 1) :: mid) ++ j0 :: junk2).set (mid.length + 1 + 1) c =
      (a :: (mid.length + 1) :: mid) ++ c :: junk2 := by
    rw [List.set_append_right _ _ (by simp)]
    simp
  have htake4 : ((a :: (mid.length + 1) :: mid) ++ c :: junk2).take (mid.length + 1 + 1) =
      a :: (mid.length + 1) :: mid :=
    List.take_left' (by simp)
  have hgd4 : ((a :: (mid.length + 1) :: mid) ++ c :: junk2).getD (mid.length + 1 + 1) 0 = c := by
    simp [List.getD_eq_getElem?_getD]
    rw [List.getElem_append_right (Nat.le_refl mid.length)]
    simp
  have htake5 : ((a :: (mid.length + 1) :: mid) ++ c :: junk2).take (mid.length + 1 + 1 + 1) =
      a :: (mid.length + 1) :: (mid ++ [c]) := by
    rw [List.take_append_eq_append_take]
    rw [List.take_of_length_le (by simp)]
    simp
  have hnew : RawCrsfPacket.new (a :: (mid.length + 1) :: (mid ++ [c])) =
      some ⟨a :: (mid.length + 1) :: (mid ++ [c])⟩ := by
    rw [RawCrsfPacket.new, if_pos (by simp; omega)]
  have hp4 : (⟨(a :: (mid.length + 1) :: mid) ++ j0 :: junk2, .AwaitingCrc,
        mid.length + 1⟩ : CrsfParser).push_byte_raw c =
      (⟨(a :: (mid.length + 1) :: mid) ++ c :: junk2, .AwaitingSync, 0⟩,
        .Complete ⟨a :: (mid.length + 1) :: (mid ++ [c])⟩) := by
    simp only [CrsfParser.push_byte_raw, hset4, htake4, hgd4]
    rw [if_neg (by simp [hcrc'])]
    rw [htake5, hnew]
    simp
  -- assemble the whole run
  have hlen4' : ((a :: (mid.length + 1) :: mid) ++ c :: junk2).length = 64 := by
    have h1 : ((a :: (mid.length + 1) :: mid) ++ j0 :: junk2).length = 64 := by
      rw [← hB, setConsec_length, hbuf2]
    simp at h1 ⊢
    omega
  have hrep : List.replicate (mid.length + 3 - 1) (ParseResult.Incomplete : ParseResult RawCrsfPacket) =
      .Incomplete :: .Incomplete :: List.replicate mid.length .Incomplete := by
    rw [show mid.length + 3 - 1 = 2 + mid.length by omega, List.replicate_add]
    rfl
  rw [runRaw_cons, hp1, runRaw_cons, hp2, runRaw_append, hrd, hB]
  rw [runRaw_cons, hp4]
  simp only [runRaw]
  refine ⟨?_, trivial, trivial, hlen4'⟩
  simp only [List.length_cons, List.length_append, List.length_nil]
  rw [show mid.length + (0 + 1) + 1 + 1 - 1 = mid.length + 3 - 1 by omega]
  rw [hrep]
  simp

theorem getD_set_self {l : List Nat} {i x : Nat} (h : i < l.length) :
    (l.set i x).getD i 0 = x := by
  simp [List.getD_eq_getElem?_getD, List.getElem?_set_self h]

theorem getD_set_ne {l : List Nat} {i j x : Nat} (h : i ≠ j) :
    (l.set i x).getD j 0 = l.getD j 0 := by
  simp [List.getD_eq_getElem?_getD, List.getElem?_set_ne h]

theorem ParserInv_new : ParserInv CrsfParser.new := by
  refine ⟨by simp [CrsfParser.new, CRSF_MAX_PACKET_SIZE], ?_⟩
  simp [CrsfParser.new]

theorem ParserInv_push (p : CrsfParser) (b : Nat) (h : ParserInv p) :
    ParserInv (p.push_byte_raw b).1 := by
  obtain ⟨hlen, hst⟩ := h
  cases hs : p.state
  case AwaitingSync =>
    simp only [CrsfParser.push_byte_raw, hs]
    split
    · exact ⟨by simp [hlen], by simp⟩
    · exact ⟨hlen, by simp⟩
  case AwaitingLenth =>
    rw [hs] at hst
    simp only at hst
    simp only [CrsfParser.push_byte_raw, hs]
    split
    · exact ⟨by simp [hlen, CrsfParser.reset], by simp [CrsfParser.reset]⟩
    · next hcond =>
      simp only [CRSF_MIN_PACKET_SIZE, CRSF_MAX_PACKET_SIZE, not_not] at hcond
      refine ⟨by simp [hlen], ?_⟩
      dsimp only
      refine ⟨by omega, by omega, by omega, by omega, ?_⟩
      rw [getD_set_self (by omega)]
      omega
  case Reading n =>
    rw [hs] at hst
    simp only at hst
    obtain ⟨h3, h62, hp1, hpn, hb1⟩ := hst
    simp only [CrsfParser.push_byte_raw, hs]
    split
    · next heq =>
      refine ⟨by simp [hlen], ?_⟩
      dsimp only
      refine ⟨by omega, by omega, ?_⟩
      rw [getD_set_ne (by omega)]
      omega
    · next hne =>
      refine ⟨by simp [hlen], ?_⟩
      dsimp only
      refine ⟨by omega, by omega, by omega, by omega, ?_⟩
      rw [getD_set_ne (by omega)]
      omega
  case AwaitingCrc =>
    rw [hs] at hst
    simp only [CrsfParser.push_byte_raw, hs]
    split
    · exact ⟨by simp [hlen], by simp⟩
    · exact ⟨by simp [hlen], by simp⟩

theorem ParserInv_runRaw (bs : List Nat) : ParserInv (runRaw CrsfParser.new bs).1 := by
  suffices h : ∀ (p : CrsfParser), ParserInv p → ParserInv (runRaw p bs).1 from
    h CrsfParser.new ParserInv_new
  induction bs with
  | nil => intro p hp; exact hp
  | cons b bs ih =>
    intro p hp
    rw [runRaw_cons]
    exact ih _ (ParserInv_push p b hp)

theorem getD_take_of_lt {l : List Nat} {n i : Nat} (h : i < n) :
    (l.take n).getD i 0 = l.getD i 0 := by
  simp [List.getD_eq_getElem?_getD, List.getElem?_take_of_lt h]

/-- A Complete result carries a raw packet satisfying the validated-frame
invariants. -/
theorem push_complete_frame_invariants (p : CrsfParser) (b : Nat)
    (raw : RawCrsfPacket) (hinv : ParserInv p)
    (h : (p.push_byte_raw b).2 = .Complete raw) :
    4 ≤ raw.len ∧ raw.len < 64 ∧
    raw.bytes.getD 1 0 = 2 + raw.payload.length ∧
    raw.crc = crc8 ((raw.bytes.take (raw.len - 1)).drop 2) := by
  obtain ⟨hlen, hst⟩ := hinv
  cases hs : p.state
  case AwaitingSync =>
    simp only [CrsfParser.push_byte_raw, hs] at h
    split at h <;> simp at h
  case AwaitingLenth =>
    simp only [CrsfParser.push_byte_raw, hs] at h
    split at h <;> simp at h
  case Reading n =>
    simp only [CrsfParser.push_byte_raw, hs] at h
    split at h <;> simp at h
  case AwaitingCrc =>
    rw [hs] at hst
    simp only at hst
    obtain ⟨hp2, hp61, hb1⟩ := hst
    simp only [CrsfParser.push_byte_raw, hs] at h
    split at h
    · simp at h
    · next hcrceq =>
      rw [not_not] at hcrceq
      have hblen : ((p.buffer.set (p.position + 1) b).take (p.position + 1 + 1)).length =
          p.position + 2 := by
        simp [hlen]
        omega
      have hnew : RawCrsfPacket.new
          ((p.buffer.set (p.position + 1) b).take (p.position + 1 + 1)) =
          some ⟨(p.buffer.set (p.position + 1) b).take (p.position + 1 + 1)⟩ := by
        rw [RawCrsfPacket.new, if_pos (by rw [hblen]; omega)]
      rw [hnew] at h
      simp only [Option.getD_some, ParseResult.Complete.injEq] at h
      subst h
      refine ⟨?_, ?_, ?_, ?_⟩
      · rw [RawCrsfPacket.len, hblen]
        omega
      · rw [RawCrsfPacket.len, hblen]
        omega
      · rw [RawCrsfPacket.payload, List.dropLast_eq_take]
        simp only [RawCrsfPacket.len, hblen]
        rw [getD_take_of_lt (by omega)]
        rw [getD_set_ne (by omega), hb1]
        simp [hblen, List.take_take]
        omega
      · rw [RawCrsfPacket.crc, RawCrsfPacket.len, hblen]
        rw [show p.position + 2 - 1 = p.position + 1 by omega]
        rw [getD_take_of_lt (by omega)]
        rw [List.take_take]
        rw [show min (p.position + 1) (p.position + 1 + 1) = p.position + 1 by omega]
        exact hcrceq.symm

/-- Every error result leaves the parser in `AwaitingSync`. -/
theorem push_error_resets (p : CrsfParser) (b : Nat) (e : CrsfStreamError)
    (h : (p.push_byte_raw b).2 = .Error e) :
    (p.push_byte_raw b).1.state = .AwaitingSync := by
  cases hs : p.state <;> simp only [CrsfParser.push_byte_raw, hs] at h ⊢ <;>
    split at h <;> simp_all [CrsfParser.reset]

theorem push_buffer_length (p : CrsfParser) (b : Nat) (h : p.buffer.length = 64) :
    (p.push_byte_raw b).1.buffer.length = 64 := by
  cases hs : p.state <;> simp only [CrsfParser.push_byte_raw, hs] <;>
    split <;> simp [CrsfParser.reset, h]

/-- C2: CRC-integrity gate.  Whenever `push_byte_raw` returns
`Complete(raw)` on any input byte from a parser that consumed an arbitrary
byte sequence since `new()`, the raw frame satisfies the three
validated-frame invariants: total length in `[4, 64)`; length byte
`raw.bytes[1]` equal to `2 +` the payload length; and final byte `raw.crc`
equal to the CRC-8/DVB-S2 digest of `raw.bytes[2 .. len - 1]`. -/
theorem complete_frame_satisfies_invariants (bs : List Nat) (b : Nat)
    (raw : RawCrsfPacket)
    (h : ((runRaw CrsfParser.new bs).1.push_byte_raw b).2 = .Complete raw) :
    4 ≤ raw.len ∧ raw.len < 64 ∧
    raw.bytes.getD 1 0 = 2 + raw.payload.length ∧
    raw.crc = crc8 ((raw.bytes.take (raw.len - 1)).drop 2) :=
  push_complete_frame_invariants _ b raw (ParserInv_runRaw bs) h

/-- Witness for the CRC-integrity gate at the crate's own test frame. -/
theorem complete_frame_satisfies_invariants_witness :
    4 ≤ (⟨[0xC8, 12, 0x14, 16, 19, 99, 151, 1, 2, 3, 8, 88, 148, 252]⟩ : RawCrsfPacket).len ∧
    (⟨[0xC8, 12, 0x14, 16, 19, 99, 151, 1, 2, 3, 8, 88, 148, 252]⟩ : RawCrsfPacket).len < 64 ∧
    (⟨[0xC8, 12, 0x14, 16, 19, 99, 151, 1, 2, 3, 8, 88, 148, 252]⟩ : RawCrsfPacket).bytes.getD 1 0 =
      2 + (⟨[0xC8, 12, 0x14, 16, 19, 99, 151, 1, 2, 3, 8, 88, 148, 252]⟩ : RawCrsfPacket).payload.length ∧
    (⟨[0xC8, 12, 0x14, 16, 19, 99, 151, 1, 2, 3, 8, 88, 148, 252]⟩ : RawCrsfPacket).crc =
      crc8 (((⟨[0xC8, 12, 0x14, 16, 19, 99, 151, 1, 2, 3, 8, 88, 148, 252]⟩ : RawCrsfPacket).bytes.take
        ((⟨[0xC8, 12, 0x14, 16, 19, 99, 151, 1, 2, 3, 8, 88, 148, 252]⟩ : RawCrsfPacket).len - 1)).drop 2) :=
  complete_frame_satisfies_invariants [0xC8, 12, 0x14, 16, 19, 99, 151, 1, 2, 3, 8, 88, 148] 252
    ⟨[0xC8, 12, 0x14, 16, 19, 99, 151, 1, 2, 3, 8, 88, 148, 252]⟩ (by decide)

/-- C3: resynchronization after error.  For every reachable parser state
(any byte sequence from `new()`) and every input byte, if `push_byte_raw`
returns an error then the parser is immediately back in `AwaitingSync`, and
a subsequent well-formed frame fed byte-by-byte parses to exactly one
`Complete`. -/
theorem error_resets_and_resynchronizes (bs : List Nat) (b : Nat)
    (e : CrsfStreamError)
    (h : ((runRaw CrsfParser.new bs).1.push_byte_raw b).2 = .Error e) :
    ((runRaw CrsfParser.new bs).1.push_byte_raw b).1.state = .AwaitingSync ∧
    ∀ f : List Nat, WellFormedFrame f →
      (runRaw ((runRaw CrsfParser.new bs).1.push_byte_raw b).1 f).2 =
        List.replicate (f.length - 1) .Incomplete ++ [.Complete ⟨f⟩] := by
  refine ⟨push_error_resets _ b e h, ?_⟩
  intro f hwf
  exact (runRaw_wellFormedFrame _ f (push_error_resets _ b e h)
    (push_buffer_length _ b (ParserInv_runRaw bs).1) hwf).1

/-- Witness for resynchronization: byte `1` is an invalid sync byte, and the
test frame parses completely right afterwards. -/
theorem error_resets_and_resynchronizes_witness :
    ((runRaw CrsfParser.new []).1.push_byte_raw 1).1.state = .AwaitingSync ∧
    (runRaw ((runRaw CrsfParser.new []).1.push_byte_raw 1).1
        [0xC8, 12, 0x14, 16, 19, 99, 151, 1, 2, 3, 8, 88, 148, 252]).2 =
      List.replicate 13 .Incomplete ++
        [.Complete ⟨[0xC8, 12, 0x14, 16, 19, 99, 151, 1, 2, 3, 8, 88, 148, 252]⟩] :=
  ⟨(error_resets_and_resynchronizes [] 1 .InvalidSync (by decide)).1,
   (error_resets_and_resynchronizes [] 1 .InvalidSync (by decide)).2
     [0xC8, 12, 0x14, 16, 19, 99, 151, 1, 2, 3, 8, 88, 148, 252]
     (by unfold WellFormedFrame; decide)⟩

/-- C9: buffer-bounds safety.  In every state reachable from `new()`:
in `Reading n` the invariant `n ≤ 62` and `position ≤ n - 1` holds, in
`AwaitingCrc` the invariant `position ≤ 62` holds, and for any input byte
every buffer index stored to by `push_byte_raw` (as given by `writeIndex`)
is strictly below 64, so no access goes out of bounds. -/
theorem parser_buffer_bounds_safe (bs : List Nat) :
    (∀ n, (runRaw CrsfParser.new bs).1.state = .Reading n →
      n ≤ 62 ∧ (runRaw CrsfParser.new bs).1.position ≤ n - 1) ∧
    ((runRaw CrsfParser.new bs).1.state = .AwaitingCrc →
      (runRaw CrsfParser.new bs).1.position ≤ 62) ∧
    (∀ (b i : Nat), writeIndex (runRaw CrsfParser.new bs).1 b = some i → i < 64) := by
  obtain ⟨hlen, hst⟩ := ParserInv_runRaw bs
  refine ⟨?_, ?_, ?_⟩
  · intro n hn
    rw [hn] at hst
    simp only at hst
    omega
  · intro hn
    rw [hn] at hst
    simp only at hst
    omega
  · intro b i hw
    rw [writeIndex] at hw
    cases hs : (runRaw CrsfParser.new bs).1.state <;> rw [hs] at hw hst <;>
      simp only at hst hw
    case AwaitingSync =>
      split at hw <;> simp_all
      omega
    case AwaitingLenth =>
      split at hw <;> simp_all
      omega
    case Reading n =>
      simp only [Option.some.injEq] at hw
      omega
    case AwaitingCrc =>
      simp only [Option.some.injEq] at hw
      omega

/-- Witness for buffer-bounds safety in a mid-frame `Reading` state. -/
theorem parser_buffer_bounds_safe_witness :
    (13 ≤ 62 ∧ (runRaw CrsfParser.new [0xC8, 12, 0x14]).1.position ≤ 13 - 1) ∧
    (3 < 64) :=
  ⟨(parser_buffer_bounds_safe [0xC8, 12, 0x14]).1 13 (by decide),
   (parser_buffer_bounds_safe [0xC8, 12, 0x14]).2.2 0 3 (by decide)⟩

/-! ## Dispatch, encoder, and end-to-end round trip (C1, C6, C7) -/

-- dispatch lemma: registered arm
theorem parse_registered (t : RegisteredType) (raw : RawCrsfPacket)
    (hty : raw.raw_packet_type = t.packetType.toU8) :
    Packet.parse raw = (t.fromBytes raw.payload).map t.arm := by
  cases t <;>
    simp [Packet.parse, hty, RegisteredType.packetType, PacketType.toU8,
      PacketType.tryFromPrimitive, RegisteredType.fromBytes, RegisteredType.arm]

theorem toBytes_sixty (t : RegisteredType) (r : t.Rec) (n : Nat) (pl : List Nat)
    (h : t.toBytes r (List.replicate 60 0) = .ok (n, pl)) :
    n ≤ 60 ∧ pl.length = 60 := by
  cases t
  case rpm =>
    have hb := r.rpm_values.2
    simp only [RegisteredType.toBytes, Rpm.to_bytes, Except.ok.injEq, Prod.mk.injEq] at h
    obtain ⟨h1, h2⟩ := h
    constructor
    · omega
    · rw [← h2, setConsec_length]
      simp
  all_goals
    simp only [RegisteredType.toBytes, LinkStatistics.to_bytes, LinkStatisticsRx.to_bytes,
      LinkStatisticsTx.to_bytes, RcChannelsPacked.to_bytes, Gps.to_bytes, GpsTime.to_bytes,
      GpsExtended.to_bytes, AirSpeed.to_bytes, BaroAltitude.to_bytes, Battery.to_bytes,
      FlightMode.to_bytes, Temp.to_bytes, Voltages.to_bytes, VtxTelemetry.to_bytes,
      VariometerSensor.to_bytes, EspNow.to_bytes, Heartbeat.to_bytes, MavLinkFc.to_bytes,
      MavlinkEnvelope.to_bytes,
      LinkStatistics.MIN_PAYLOAD_SIZE, LinkStatisticsRx.MIN_PAYLOAD_SIZE,
      LinkStatisticsTx.SERIALIZED_LEN, RcChannelsPacked.MIN_PAYLOAD_SIZE,
      Gps.MIN_PAYLOAD_SIZE, GpsTime.MIN_PAYLOAD_SIZE, GpsExtended.MIN_PAYLOAD_SIZE,
      AirSpeed.MIN_PAYLOAD_SIZE, BaroAltitude.MIN_PAYLOAD_SIZE, Battery.MIN_PAYLOAD_SIZE,
      FlightMode.MIN_PAYLOAD_SIZE, Temp.MIN_PAYLOAD_SIZE, Voltages.MIN_PAYLOAD_SIZE,
      VtxTelemetry.MIN_PAYLOAD_SIZE, VariometerSensor.MIN_PAYLOAD_SIZE,
      EspNow.MIN_PAYLOAD_SIZE, Heartbeat.MIN_PAYLOAD_SIZE, MavLinkFc.MIN_PAYLOAD_SIZE,
      MavlinkEnvelope.MIN_PAYLOAD_SIZE, List.length_replicate] at h
  all_goals (try split at h)
  all_goals (replace h := h.symm)
  all_goals simp_all [setConsec_length]

theorem write_packet_spec (t : RegisteredType) (r : t.Rec)
    (buffer : List Nat) (dest : PacketAddress) (ps : Nat) (pl : List Nat)
    (henc : t.toBytes r (List.replicate MAX_PAYLOAD_SIZE 0) = .ok (ps, pl)) :
    (ps + 4 ≤ buffer.length →
      write_packet_to_buffer t buffer dest r =
        (.ok (ps + 4),
          [dest.toU8, ps + 2, t.packetType.toU8] ++ pl.take ps ++
            [crc8 (t.packetType.toU8 :: pl.take ps)] ++ buffer.drop (ps + 4))) ∧
    (buffer.length < ps + 4 →
      write_packet_to_buffer t buffer dest r = (.error .BufferOverflow, buffer)) := by
  obtain ⟨hle, hlen⟩ := toBytes_sixty t r ps pl henc
  have htk : (pl.take ps).length = ps := by simp [hlen]; omega
  constructor
  · intro hb
    simp only [write_packet_to_buffer, henc]
    rw [if_neg (by omega)]
    rw [show (ps + 2) % 256 = ps + 2 from Nat.mod_eq_of_lt (by omega)]
    rw [setConsec_eq_append _ _ _ (by simp [htk]; omega)]
    simp [htk]
  · intro hb
    simp only [write_packet_to_buffer, henc]
    rw [if_pos hb]

theorem isValidAddressByte_toU8 (a : PacketAddress) :
    isValidAddressByte a.toU8 = true := by
  cases a <;> rfl

theorem push_byte_eq (p : CrsfParser) (b : Nat) :
    p.push_byte b = ((p.push_byte_raw b).1, liftResult (p.push_byte_raw b).2) := by
  rcases hpr : p.push_byte_raw b with ⟨p2, r⟩
  cases r
  case Complete raw =>
    cases hparse : Packet.parse raw <;>
      simp [CrsfParser.push_byte, liftResult, hpr, hparse]
  case Incomplete => simp [CrsfParser.push_byte, liftResult, hpr]
  case Error e => simp [CrsfParser.push_byte, liftResult, hpr]

theorem runTyped_eq (bs : List Nat) : ∀ (p : CrsfParser),
    runTyped p bs = ((runRaw p bs).1, (runRaw p bs).2.map liftResult) := by
  induction bs with
  | nil => intro p; simp [runTyped, runRaw]
  | cons b bs ih =>
    intro p
    rw [runTyped, runRaw_cons, push_byte_eq]
    simp [ih]

theorem encode_parse_aux (t : RegisteredType) (r r2 : t.Rec)
    (dest : PacketAddress) (buffer : List Nat) (ps : Nat) (pl : List Nat)
    (hbuf : 64 ≤ buffer.length)
    (henc : t.toBytes r (List.replicate MAX_PAYLOAD_SIZE 0) = .ok (ps, pl))
    (hsize : ps + 4 < 64)
    (hdec : t.fromBytes (pl.take ps) = .ok r2) :
    ∃ frame,
      write_packet_to_buffer t buffer dest r = (.ok (ps + 4), frame) ∧
      (runTyped CrsfParser.new (frame.take (ps + 4))).2 =
        List.replicate (ps + 3) .Incomplete ++ [.Complete (t.arm r2)] := by
  obtain ⟨hle, hlen⟩ := toBytes_sixty t r ps pl henc
  have htk : (pl.take ps).length = ps := by simp [hlen]; omega
  have hp := (write_packet_spec t r buffer dest ps pl henc).1 (by omega)
  refine ⟨_, hp, ?_⟩
  have hFlen : ([dest.toU8, ps + 2, t.packetType.toU8] ++ pl.take ps ++
      [crc8 (t.packetType.toU8 :: pl.take ps)]).length = ps + 4 := by
    simp [htk]
  have htake : (([dest.toU8, ps + 2, t.packetType.toU8] ++ pl.take ps ++
        [crc8 (t.packetType.toU8 :: pl.take ps)]) ++ buffer.drop (ps + 4)).take (ps + 4) =
      [dest.toU8, ps + 2, t.packetType.toU8] ++ pl.take ps ++
        [crc8 (t.packetType.toU8 :: pl.take ps)] :=
    List.take_left' hFlen
  rw [htake]
  -- the constructed frame is well formed
  have hwf : WellFormedFrame ([dest.toU8, ps + 2, t.packetType.toU8] ++ pl.take ps ++
      [crc8 (t.packetType.toU8 :: pl.take ps)]) := by
    refine ⟨by rw [hFlen]; omega, by rw [hFlen]; omega, ?_, ?_, ?_⟩
    · simp [isValidAddressByte_toU8]
    · simp [hFlen, htk]
    · rw [hFlen]
      have hgd : ([dest.toU8, ps + 2, t.packetType.toU8] ++ pl.take ps ++
          [crc8 (t.packetType.toU8 :: pl.take ps)]).getD (ps + 4 - 1) 0 =
          crc8 (t.packetType.toU8 :: pl.take ps) := by
        rw [show ps + 4 - 1 = ([dest.toU8, ps + 2, t.packetType.toU8] ++ pl.take ps).length by
          simp [htk]]
        simp [List.getD_eq_getElem?_getD, List.getElem?_append_right (Nat.le_refl _)]
      rw [hgd]
      have hta : ([dest.toU8, ps + 2, t.packetType.toU8] ++ pl.take ps ++
          [crc8 (t.packetType.toU8 :: pl.take ps)]).take (ps + 4 - 1) =
          [dest.toU8, ps + 2, t.packetType.toU8] ++ pl.take ps :=
        List.take_left' (by simp [htk])
      rw [hta]
      simp
  have hrun := runRaw_wellFormedFrame CrsfParser.new
    ([dest.toU8, ps + 2, t.packetType.toU8] ++ pl.take ps ++
      [crc8 (t.packetType.toU8 :: pl.take ps)]) rfl
    (by simp [CrsfParser.new, CRSF_MAX_PACKET_SIZE]) hwf
  rw [runTyped_eq, hrun.1, hFlen]
  have hparse : Packet.parse ⟨dest.toU8 :: (ps + 2) :: t.packetType.toU8 ::
      (pl.take ps ++ [crc8 (t.packetType.toU8 :: pl.take ps)])⟩ = .ok (t.arm r2) := by
    rw [parse_registered t _ (by simp [RawCrsfPacket.raw_packet_type])]
    have hpay : RawCrsfPacket.payload ⟨dest.toU8 :: (ps + 2) :: t.packetType.toU8 ::
        (pl.take ps ++ [crc8 (t.packetType.toU8 :: pl.take ps)])⟩ = pl.take ps := by
      show ((([dest.toU8, ps + 2, t.packetType.toU8] ++ pl.take ps) ++
        [crc8 (t.packetType.toU8 :: pl.take ps)]).dropLast).drop 3 = pl.take ps
      rw [List.dropLast_concat]
      exact List.drop_left' (by simp)
    rw [hpay, hdec]
    rfl
  simp [List.map_append, liftResult, hparse]

theorem tryFromPrimitive_toU8_packetType (pt : PacketType) :
    PacketType.tryFromPrimitive pt.toU8 = some pt := by
  cases pt <;> rfl

theorem parse_unregistered (pt : PacketType) (raw : RawCrsfPacket)
    (hty : raw.raw_packet_type = pt.toU8)
    (hnr : isRegistered pt = false) :
    Packet.parse raw = .ok (.NotImlemented pt raw.payload.length) := by
  cases pt <;>
    first
      | (simp [isRegistered] at hnr; done)
      | simp [Packet.parse, hty, tryFromPrimitive_toU8_packetType]

theorem parse_unknown (raw : RawCrsfPacket)
    (h : PacketType.tryFromPrimitive raw.raw_packet_type = none) :
    Packet.parse raw = .error (.UnexpectedPacketType raw.raw_packet_type) := by
  simp [Packet.parse, h]

theorem parse_registered_error (t : RegisteredType) (raw : RawCrsfPacket)
    (e : CrsfParsingError) (hty : raw.raw_packet_type = t.packetType.toU8)
    (hfb : t.fromBytes raw.payload = .error e) :
    Packet.parse raw = .error e := by
  rw [parse_registered t raw hty, hfb]
  rfl

/-- C1 counterexample: the record `RcChannelsPacked` with `ch0 = 2048` (a
legal `u16` field value, one past the 11-bit range) is encoded by
`write_packet_to_buffer`, the frame parses to exactly one `Complete`, but
the decoded record is `⟨0, 1, 0, …⟩`, not the original: to_bytes masks
each channel to 11 bits, so out-of-range channel values do not round-trip. -/
theorem encode_then_parse_round_trip_cx :
    ∃ frame,
      write_packet_to_buffer .rcChannelsPacked (List.replicate 64 0)
        .FlightController ⟨2048, 0, 0, 0, 0, 0, 0, 0, 0, 0, 0, 0, 0, 0, 0, 0⟩ =
        (.ok (22 + 4), frame) ∧
      (runTyped CrsfParser.new (frame.take (22 + 4))).2 =
        List.replicate (22 + 3) .Incomplete ++
          [.Complete (.RCChannels ⟨0, 1, 0, 0, 0, 0, 0, 0, 0, 0, 0, 0, 0, 0, 0, 0⟩)] ∧
      (⟨0, 1, 0, 0, 0, 0, 0, 0, 0, 0, 0, 0, 0, 0, 0, 0⟩ : RcChannelsPacked) ≠
        ⟨2048, 0, 0, 0, 0, 0, 0, 0, 0, 0, 0, 0, 0, 0, 0, 0⟩ := by
  obtain ⟨frame, h1, h2⟩ := encode_parse_aux .rcChannelsPacked
    ⟨2048, 0, 0, 0, 0, 0, 0, 0, 0, 0, 0, 0, 0, 0, 0, 0⟩
    ⟨0, 1, 0, 0, 0, 0, 0, 0, 0, 0, 0, 0, 0, 0, 0, 0⟩
    .FlightController (List.replicate 64 0) 22 (0 :: 8 :: List.replicate 58 0)
    (by simp) rfl (by decide) rfl
  exact ⟨frame, h1, h2, by decide⟩

/-- C1 (amended): for every registered record type `t` and record `r` whose
encode succeeds with `ps` payload bytes, `ps + 4 < 64`, and whose encoded
payload decodes back to `r`, writing the frame into a large-enough buffer
and pushing its `ps + 4` bytes one at a time into a fresh parser yields
exactly one `Complete`, holding the tagged-union arm of `r`. -/
theorem encode_then_parse_round_trip (t : RegisteredType) (r : t.Rec)
    (dest : PacketAddress) (buffer : List Nat) (ps : Nat) (pl : List Nat)
    (hbuf : 64 ≤ buffer.length)
    (henc : t.toBytes r (List.replicate MAX_PAYLOAD_SIZE 0) = .ok (ps, pl))
    (hsize : ps + 4 < 64)
    (hdec : t.fromBytes (pl.take ps) = .ok r) :
    ∃ frame,
      write_packet_to_buffer t buffer dest r = (.ok (ps + 4), frame) ∧
      (runTyped CrsfParser.new (frame.take (ps + 4))).2 =
        List.replicate (ps + 3) .Incomplete ++ [.Complete (t.arm r)] :=
  encode_parse_aux t r r dest buffer ps pl hbuf henc hsize hdec

/-- Witness for the amended C1 theorem at the all-zero RC-channels record. -/
theorem encode_then_parse_round_trip_witness :
    RegisteredType.rcChannelsPacked.toBytes
        ⟨0, 0, 0, 0, 0, 0, 0, 0, 0, 0, 0, 0, 0, 0, 0, 0⟩
        (List.replicate MAX_PAYLOAD_SIZE 0) = .ok (22, List.replicate 60 0) ∧
    RegisteredType.rcChannelsPacked.fromBytes ((List.replicate 60 0).take 22) =
      .ok ⟨0, 0, 0, 0, 0, 0, 0, 0, 0, 0, 0, 0, 0, 0, 0, 0⟩ ∧
    ∃ frame,
      write_packet_to_buffer .rcChannelsPacked (List.replicate 64 0)
        .FlightController ⟨0, 0, 0, 0, 0, 0, 0, 0, 0, 0, 0, 0, 0, 0, 0, 0⟩ =
        (.ok (22 + 4), frame) ∧
      (runTyped CrsfParser.new (frame.take (22 + 4))).2 =
        List.replicate (22 + 3) .Incomplete ++
          [.Complete (.RCChannels ⟨0, 0, 0, 0, 0, 0, 0, 0, 0, 0, 0, 0, 0, 0, 0, 0⟩)] :=
  ⟨rfl, rfl,
    encode_then_parse_round_trip .rcChannelsPacked
      ⟨0, 0, 0, 0, 0, 0, 0, 0, 0, 0, 0, 0, 0, 0, 0, 0⟩ .FlightController
      (List.replicate 64 0) 22 (List.replicate 60 0) (by simp) rfl (by decide) rfl⟩

/-- C6 counterexample: the frame `[0xC8, 3, 4, 0, 44]` passes the CRC gate
(the fresh parser returns `Complete` on its last byte), its wire type tag 4
has no registered codec, yet `Packet::parse` returns
`Err(UnexpectedPacketType(4))` rather than a `NotImlemented` arm: the
fallback only covers tags that are `PacketType` values. -/
theorem dispatch_fallback_cx :
    (runRaw CrsfParser.new [0xC8, 3, 4, 0, 44]).2 =
      [.Incomplete, .Incomplete, .Incomplete, .Incomplete,
        .Complete ⟨[0xC8, 3, 4, 0, 44]⟩] ∧
    Packet.parse ⟨[0xC8, 3, 4, 0, 44]⟩ = .error (.UnexpectedPacketType 4) :=
  ⟨by decide, rfl⟩

/-- C6 (amended): `Packet::parse` returns the `NotImlemented` arm carrying
the tag and the payload length exactly for tags that are `PacketType`
values without a registered codec; a tag that is no `PacketType` value
yields `Err(UnexpectedPacketType(tag))`; and when a registered codec's
decode fails, the decode error is propagated unchanged. -/
theorem dispatch_fallback_and_error_propagation :
    (∀ (pt : PacketType) (raw : RawCrsfPacket),
        raw.raw_packet_type = pt.toU8 → isRegistered pt = false →
        Packet.parse raw = .ok (.NotImlemented pt raw.payload.length)) ∧
    (∀ raw : RawCrsfPacket,
        PacketType.tryFromPrimitive raw.raw_packet_type = none →
        Packet.parse raw = .error (.UnexpectedPacketType raw.raw_packet_type)) ∧
    (∀ (t : RegisteredType) (raw : RawCrsfPacket) (e : CrsfParsingError),
        raw.raw_packet_type = t.packetType.toU8 →
        t.fromBytes raw.payload = .error e →
        Packet.parse raw = .error e) :=
  ⟨parse_unregistered, parse_unknown, parse_registered_error⟩

/-- Witness for the amended C6 theorem: a `DevicePing` (0x28) frame maps to
`NotImlemented`, tag 4 to `UnexpectedPacketType`, and an RC-channels frame
with an empty payload propagates `InvalidPayloadLength`. -/
theorem dispatch_fallback_and_error_propagation_witness :
    Packet.parse ⟨[0xC8, 2, 0x28, 99]⟩ = .ok (.NotImlemented .DevicePing 0) ∧
    Packet.parse ⟨[0xC8, 2, 4, 99]⟩ = .error (.UnexpectedPacketType 4) ∧
    Packet.parse ⟨[0xC8, 2, 0x16, 99]⟩ = .error .InvalidPayloadLength :=
  ⟨dispatch_fallback_and_error_propagation.1 .DevicePing ⟨[0xC8, 2, 0x28, 99]⟩ rfl rfl,
   dispatch_fallback_and_error_propagation.2.1 ⟨[0xC8, 2, 4, 99]⟩ rfl,
   dispatch_fallback_and_error_propagation.2.2 .rcChannelsPacked
     ⟨[0xC8, 2, 0x16, 99]⟩ .InvalidPayloadLength rfl rfl⟩

/-- C7: when the codec encode succeeds with `ps` payload bytes, a buffer of
at least `ps + 4` bytes receives
`[dest][ps + 2][PACKET_TYPE][payload][crc8(type :: payload)]` with the rest
of the buffer unchanged and the call returns `Ok(ps + 4)`; a shorter buffer
yields `Err(BufferOverflow)` with every buffer byte unchanged. -/
theorem frame_encoder_output_and_fail_closed (t : RegisteredType) (r : t.Rec)
    (buffer : List Nat) (dest : PacketAddress) (ps : Nat) (pl : List Nat)
    (henc : t.toBytes r (List.replicate MAX_PAYLOAD_SIZE 0) = .ok (ps, pl)) :
    (ps + 4 ≤ buffer.length →
      write_packet_to_buffer t buffer dest r =
        (.ok (ps + 4),
          [dest.toU8, ps + 2, t.packetType.toU8] ++ pl.take ps ++
            [crc8 (t.packetType.toU8 :: pl.take ps)] ++ buffer.drop (ps + 4))) ∧
    (buffer.length < ps + 4 →
      write_packet_to_buffer t buffer dest r = (.error .BufferOverflow, buffer)) :=
  write_packet_spec t r buffer dest ps pl henc

/-- Witness for C7 at the all-zero RC-channels record: a 64-byte buffer
receives the framed payload, a 10-byte buffer fails closed unchanged. -/
theorem frame_encoder_output_and_fail_closed_witness :
    22 + 4 ≤ (List.replicate 64 (0 : Nat)).length ∧
    write_packet_to_buffer .rcChannelsPacked (List.replicate 64 0) .Broadcast
        ⟨0, 0, 0, 0, 0, 0, 0, 0, 0, 0, 0, 0, 0, 0, 0, 0⟩ =
      (.ok (22 + 4),
        [PacketAddress.Broadcast.toU8, 22 + 2,
            RegisteredType.rcChannelsPacked.packetType.toU8] ++
          (List.replicate 60 0).take 22 ++
          [crc8 (RegisteredType.rcChannelsPacked.packetType.toU8 ::
            (List.replicate 60 0).take 22)] ++
          (List.replicate 64 0).drop (22 + 4)) ∧
    (List.replicate 10 (0 : Nat)).length < 22 + 4 ∧
    write_packet_to_buffer .rcChannelsPacked (List.replicate 10 0) .Broadcast
        ⟨0, 0, 0, 0, 0, 0, 0, 0, 0, 0, 0, 0, 0, 0, 0, 0⟩ =
      (.error .BufferOverflow, List.replicate 10 0) :=
  ⟨by simp,
   (frame_encoder_output_and_fail_closed .rcChannelsPacked
     ⟨0, 0, 0, 0, 0, 0, 0, 0, 0, 0, 0, 0, 0, 0, 0, 0⟩ (List.replicate 64 0)
     .Broadcast 22 (List.replicate 60 0) rfl).1 (by simp),
   by simp,
   (frame_encoder_output_and_fail_closed .rcChannelsPacked
     ⟨0, 0, 0, 0, 0, 0, 0, 0, 0, 0, 0, 0, 0, 0, 0, 0⟩ (List.replicate 10 0)
     .Broadcast 22 (List.replicate 60 0) rfl).2 (by simp)⟩


end UfCrsf
